import Mathlib

/-!
# otel-zipkin-api: Edge service (service-a) and Resolver service (service-b)

A shallow embedding of the two HTTP handlers `handleCEP` (service-a/main.go) and
`handleWeather` (service-b/main.go) with their helpers `isValidCEP`,
`fetchCityFromCEP` and `fetchTemperature`.

Modelling conventions

* Go strings that reach the handlers come out of `encoding/json` or are program
  constants, hence valid UTF-8; they are Lean `String`s.
* Everything the handlers obtain from outside the process (JSON decoders,
  `client.Do`, `os.Getenv`, the tracer's ID generator) is a field of `Env`.
* The OpenTelemetry tracer is a log of span events threaded through the code as
  explicit state (`World`); `defer span.End()` is the event appended after the
  body of the function on every path.
* `http.ResponseWriter` is the record of what has been written to it, or of
  the fact that a call on it panicked.
* Temperatures are Lean `Float`s in the handlers; the float64 arithmetic itself
  is spelled out in `Binary64`, where it can be evaluated.
-/

set_option autoImplicit false

namespace OtelZipkin

/-! ## regexp: the fragment of RE2 syntax used by the pattern `^\d{8}$` -/

/-- Regular expressions, restricted to the operators of `^\d{8}$`. -/
inductive Regex where
  /-- `^` without the `m` flag: beginning of text. -/
  | beginText
  /-- `$` without the `m` flag: end of text. -/
  | endText
  /-- `\d`: the Perl class `[0-9]` (ASCII only in RE2). -/
  | digit
  /-- Concatenation. -/
  | cat (r₁ r₂ : Regex)
  /-- Counted repetition `r{n}`. -/
  | rep (n : Nat) (r : Regex)
deriving Repr

/-- `\d` in RE2 matches exactly the code points `0x30..0x39`. -/
def isPerlDigit (c : Char) : Bool := 48 ≤ c.toNat && c.toNat ≤ 57

/-- A matcher position: whether we are at the beginning of the text, and the
text that remains. -/
abbrev Pos := Bool × List Char

/-- Matching `n` copies of a sub-expression one after the other. -/
def repeatMatch (m : Pos → List Pos) : Nat → Pos → List Pos
  | 0, p => [p]
  | n + 1, p => (m p).flatMap (repeatMatch m n)

/-- All positions at which a match of `r` that starts at `p` can end. -/
def Regex.matchAt : Regex → Pos → List Pos
  | .beginText, p => if p.1 then [p] else []
  | .endText, p => if p.2.isEmpty then [p] else []
  | .digit, p =>
    match p.2 with
    | [] => []
    | c :: cs => if isPerlDigit c then [(false, cs)] else []
  | .cat r₁ r₂, p => (r₁.matchAt p).flatMap r₂.matchAt
  | .rep n r, p => repeatMatch r.matchAt n p

/-- Unanchored search: is there a match starting at this position or later? -/
def Regex.search (r : Regex) : Bool → List Char → Bool
  | atStart, [] => !(r.matchAt (atStart, [])).isEmpty
  | atStart, c :: cs => !(r.matchAt (atStart, c :: cs)).isEmpty || r.search false cs

/-- `regexp.MatchString(pattern, s)` for a pattern that compiles: reports
whether `s` contains any match of the pattern. -/
def MatchString (r : Regex) (s : String) : Bool := r.search true s.data

/-- The pattern literal `^\d{8}$`. -/
def cepPattern : Regex := .cat .beginText (.cat (.rep 8 .digit) .endText)

/-! ## net/http and net/url -/

/-- `http.Header`: an association list from canonical header names to values;
a repeated name stands for several values in order. -/
structure Header where
  entries : List (String × String)
deriving Repr, DecidableEq

/-- `Header.Get`: the first value of the name, or the empty string. -/
def Header.get (h : Header) (key : String) : String :=
  match h.entries.find? (fun kv => kv.1 == key) with
  | some kv => kv.2
  | none => ""

/-- `Header.Set`: replaces every value of the name by the single value. -/
def Header.set (h : Header) (key value : String) : Header :=
  ⟨(key, value) :: h.entries.filter (fun kv => kv.1 != key)⟩

/-- Whether the header map has an entry for the name. -/
def Header.has (h : Header) (key : String) : Bool :=
  h.entries.any (fun kv => kv.1 == key)

/-- `make(http.Header)`. -/
def Header.empty : Header := ⟨[]⟩

/-- `trace.SpanContext`: the identifiers a span propagates. -/
structure SpanContext where
  traceID : String
  spanID : String
  sampled : Bool
  traceState : String
deriving Repr, DecidableEq

/-- `context.Context`, restricted to the values OpenTelemetry keeps in it: the
current span and the baggage. -/
structure Context where
  span : Option SpanContext
  baggage : String
deriving Repr, DecidableEq

/-- `context.Background()` as far as tracing is concerned; also what
`r.Context()` is under the plain `net/http` server started by `main`. -/
def Context.background : Context := ⟨none, ""⟩

/-- `CEPRequest` (both services). -/
structure CEPRequest where
  CEP : String
deriving Repr, DecidableEq

/-- `ErrorResponse` (both services). -/
structure ErrorResponse where
  Message : String
deriving Repr, DecidableEq

/-- `WeatherResponse` (service-b). -/
structure WeatherResponse where
  City : String
  TempC : Float
  TempF : Float
  TempK : Float

/-- `ViaCEPResponse` (service-b). -/
structure ViaCEPResponse where
  Localidade : String
  Erro : Bool
deriving Repr, DecidableEq

/-- `WeatherAPIResponse` (service-b): only `current.temp_c`. -/
structure WeatherAPIResponse where
  TempC : Float

/-- An inbound `*http.Request`. -/
structure Request where
  method : String
  header : Header
  body : String
  ctx : Context

/-- An outbound `*http.Request` as handed to `client.Do`. The default
transport puts on the wire the entries of `header` plus its own `Host`,
`User-Agent`, `Content-Length` and `Accept-Encoding`. The Go context of the
request governs cancellation only and is not transmitted, so it is not a
field. `body` is the value whose `json.Marshal` output is the request body, if
there is a body. -/
structure OutboundRequest where
  method : String
  url : String
  header : Header
  body : Option CEPRequest
deriving Repr, DecidableEq

/-- A `*http.Response` returned by `client.Do`: the status code of the final
response (after any redirect the client followed itself), its headers, and
the bytes its body yields. -/
structure HTTPResponse where
  statusCode : Nat
  header : Header
  body : String
deriving Repr, DecidableEq

/-- A value handed to `json.NewEncoder(w).Encode`. -/
inductive JSONValue where
  | errorResponse (e : ErrorResponse)
  | weatherResponse (r : WeatherResponse)

/-- One write to the response body. -/
inductive Chunk where
  /-- Raw text: `fmt.Fprintln` in `http.Error`, or `io.Copy`. -/
  | text (s : String)
  /-- The call `json.NewEncoder(w).Encode(v)` on the writer; the rendering of
  `v` as JSON text is left to the encoder. -/
  | encoded (v : JSONValue)

/-- `http.ResponseWriter` as the record of what was written to it. `panicked`
is set when a call on the writer panicked: the handler is unwound at that
point (deferred calls still run), the server recovers and closes the
connection, and no later call on the writer happens. -/
structure ResponseWriter where
  header : Header
  status : Option Nat
  body : List Chunk
  panicked : Bool

/-- The writer the server hands to a handler. -/
def ResponseWriter.new : ResponseWriter := ⟨Header.empty, none, [], false⟩

/-- `w.Header().Set(key, value)`. -/
def ResponseWriter.setHeader (w : ResponseWriter) (key value : String) : ResponseWriter :=
  if w.panicked then w else { w with header := w.header.set key value }

/-- `w.WriteHeader(code)` of net/http: a call after the header was written is
ignored; `checkWriteHeaderCode` panics for a code below 100 or above 999; a
code from 100 to 199 other than 101 is sent as an informational response and
leaves the final status open; any other code becomes the status. -/
def ResponseWriter.writeHeader (w : ResponseWriter) (code : Nat) : ResponseWriter :=
  if w.panicked then w
  else
    match w.status with
    | some _ => w
    | none =>
      if code < 100 || 999 < code then { w with panicked := true }
      else if code ≤ 199 && code != 101 then w
      else { w with status := some code }

/-- A body write; an implicit `WriteHeader(200)` if none happened before. -/
def ResponseWriter.write (w : ResponseWriter) (c : Chunk) : ResponseWriter :=
  if w.panicked then w
  else
    let w := w.writeHeader 200
    { w with body := w.body ++ [c] }

/-- `http.Error(w, error, code)`. -/
def httpError (w : ResponseWriter) (error : String) (code : Nat) : ResponseWriter :=
  let w := w.setHeader "Content-Type" "text/plain; charset=utf-8"
  let w := w.setHeader "X-Content-Type-Options" "nosniff"
  let w := w.writeHeader code
  w.write (.text (error ++ "\n"))

/-- `httpguts.IsTokenRune`: the characters allowed in a method name. -/
def isTokenRune (c : Char) : Bool :=
  c.isAlphanum || [33, 35, 36, 37, 38, 39, 42, 43, 45, 46, 94, 95, 96, 124, 126].contains c.toNat

/-- `validMethod` of net/http. -/
def validMethod (method : String) : Bool :=
  !method.data.isEmpty && method.data.all isTokenRune

/-- `stringContainsCTLByte` of net/url. -/
def stringContainsCTLByte (s : List Char) : Bool :=
  s.any fun c => c.toNat < 32 || c.toNat == 127

/-- `ishex` of net/url. -/
def ishex (c : Char) : Bool :=
  (48 ≤ c.toNat && c.toNat ≤ 57) || (97 ≤ c.toNat && c.toNat ≤ 102) ||
    (65 ≤ c.toNat && c.toNat ≤ 70)

/-- The error check of `unescape` in path and fragment mode: every `%` is
followed by two hexadecimal digits. `pending` counts the digits still owed. -/
def validEscapes : Nat → List Char → Bool
  | 0, [] => true
  | _ + 1, [] => false
  | 0, c :: cs => if c == '%' then validEscapes 2 cs else validEscapes 0 cs
  | n + 1, c :: cs => ishex c && validEscapes n cs

/-- `getScheme` of net/url: `none` is the error "missing protocol scheme",
otherwise the scheme (possibly empty) and the rest. `seen` is the prefix read
so far. -/
def getScheme (raw : List Char) : List Char → List Char → Option (List Char × List Char)
  | _, [] => some ([], raw)
  | seen, c :: cs =>
    if c.isAlpha then getScheme raw (seen ++ [c]) cs
    else if c.isDigit || c == '+' || c == '-' || c == '.' then
      if seen.isEmpty then some ([], raw) else getScheme raw (seen ++ [c]) cs
    else if c == ':' then
      if seen.isEmpty then none else some (seen, cs)
    else some ([], raw)

/-- `validOptionalPort` of net/url. -/
def validOptionalPort : List Char → Bool
  | [] => true
  | c :: cs => c == ':' && cs.all Char.isDigit

/-- The characters `unescape` accepts unescaped in host mode: non-ASCII,
alphanumerics, the sub-delimiters, the marks, and `: [ ] < > "`. -/
def isHostChar (c : Char) : Bool :=
  128 ≤ c.toNat || c.isAlphanum ||
    [33, 36, 38, 39, 40, 41, 42, 43, 44, 59, 61, 58, 91, 93, 60, 62, 34,
      45, 95, 46, 126].contains c.toNat

/-- The part of a host from its last colon on (empty if there is no colon). -/
def colonPort (host : List Char) : List Char :=
  match (host.reverse.span (fun c => c != ':')).2 with
  | [] => []
  | _ => ':' :: (host.reverse.takeWhile (fun c => c != ':')).reverse

/-- `parseAuthority` as an error check, for authorities that are a registered
name with an optional port (no user information, no IP literal and no
percent-escape, none of which the program builds): the port is numeric and the
host has only host characters. -/
def validAuthority (authority : List Char) : Bool :=
  validOptionalPort (colonPort authority) && authority.all isHostChar

/-- `url.Parse` as an error check: `true` when the raw URL parses. -/
def urlParses (rawURL : String) : Bool :=
  let u := rawURL.data.takeWhile (fun c => c != '#')
  let frag := (rawURL.data.dropWhile (fun c => c != '#')).drop 1
  if stringContainsCTLByte u then false
  else
    match getScheme u [] u with
    | none => false
    | some (scheme, rest) =>
      let rest := rest.takeWhile (fun c => c != '?')
      let rooted := rest.head? == some '/'
      if !rooted && !scheme.isEmpty then validEscapes 0 frag
      else if !rooted && (rest.takeWhile (fun c => c != '/')).contains ':' then false
      else
        let hasAuthority := (!scheme.isEmpty || !("///".data).isPrefixOf rest) &&
          ("//".data).isPrefixOf rest
        let authority := if hasAuthority then (rest.drop 2).takeWhile (fun c => c != '/') else []
        let path := if hasAuthority then (rest.drop 2).dropWhile (fun c => c != '/') else rest
        (!hasAuthority || validAuthority authority) && validEscapes 0 path &&
          validEscapes 0 frag

/-- `http.NewRequestWithContext(ctx, method, url, body)`: fails on an invalid
method or an unparsable URL (the context is never nil here); otherwise a
request with an empty header map. Nothing of `ctx` is copied into the
header map. -/
def newRequestWithContext (_ctx : Context) (method url : String) (body : Option CEPRequest) :
    Except String OutboundRequest :=
  let method := if method == "" then "GET" else method
  if !validMethod method then .error ("net/http: invalid method " ++ method)
  else if !urlParses url then .error ("parse " ++ url)
  else .ok { method := method, url := url, header := Header.empty, body := body }

/-! ## OpenTelemetry: spans and propagation -/

/-- An attribute value (`attribute.String`, `attribute.Float64`). -/
inductive AttrValue where
  | string (s : String)
  | float64 (x : Float)

/-- A call on the tracing API. Spans are named by their handle, the index of
their creation. -/
inductive SpanEvent where
  /-- The `tracer.Start(ctx, name)` call that created span `span`, with the span context
  it received and the span context of its parent, if any. -/
  | start (span : Nat) (name : String) (sc : SpanContext) (parent : Option SpanContext)
  /-- The `span.SetAttributes` call. -/
  | setAttributes (span : Nat) (key : String) (value : AttrValue)
  /-- The `span.RecordError(err)` call. -/
  | recordError (span : Nat) (err : String)
  /-- The `span.SetStatus(codes.Error, description)` call. -/
  | setStatusError (span : Nat) (description : String)
  /-- The `span.End()` call. -/
  | endSpan (span : Nat)

/-- Everything outside the process that the handlers consult. -/
structure Env where
  /-- The tracer's ID generator: the trace ID drawn for the `n`-th span. -/
  newTraceID : Nat → String
  /-- The tracer's ID generator: the span ID drawn for the `n`-th span. -/
  newSpanID : Nat → String
  /-- The call `json.NewDecoder(r.Body).Decode(&req)` into a `CEPRequest`. -/
  decodeCEPRequest : String → Except String CEPRequest
  /-- The call `client.Do(req)`: a transport error or the response. -/
  clientDo : OutboundRequest → Except String HTTPResponse
  /-- The call `json.NewDecoder(resp.Body).Decode` into a `ViaCEPResponse`. -/
  decodeViaCEPResponse : String → Except String ViaCEPResponse
  /-- The call `json.NewDecoder(resp.Body).Decode` into a `WeatherAPIResponse`. -/
  decodeWeatherAPIResponse : String → Except String WeatherAPIResponse
  /-- The call `os.Getenv`. -/
  getenv : String → String

/-- The observable state threaded through a handler: the tracer's span counter,
the tracing calls made so far, and the requests handed to `client.Do` so far
(both oldest first). -/
structure World where
  nextSpan : Nat
  events : List SpanEvent
  sent : List OutboundRequest

/-- A world in which nothing has been recorded yet; `n` spans were created
before. -/
def World.fresh (n : Nat) : World := ⟨n, [], []⟩

/-- Appends a tracing call to the log. -/
def World.emit (σ : World) (e : SpanEvent) : World :=
  { σ with events := σ.events ++ [e] }

/-- Records that a request was handed to `client.Do`. -/
def World.send (σ : World) (req : OutboundRequest) : World :=
  { σ with sent := σ.sent ++ [req] }

/-- The pair `span.RecordError(err); span.SetStatus(codes.Error, err.Error())`. -/
def World.fail (σ : World) (span : Nat) (err : String) : World :=
  (σ.emit (.recordError span err)).emit (.setStatusError span err)

/-- The span context `tracer.Start` gives a new span under `ctx` with the
SDK's default sampler (`ParentBased(AlwaysSample)`): trace ID, sampling flag
and trace state of the span in `ctx` if there is one, else a new trace ID; a
new span ID in both cases. -/
def childSpanContext (env : Env) (σ : World) (ctx : Context) : SpanContext :=
  match ctx.span with
  | some p => ⟨p.traceID, env.newSpanID σ.nextSpan, p.sampled, p.traceState⟩
  | none => ⟨env.newTraceID σ.nextSpan, env.newSpanID σ.nextSpan, true, ""⟩

/-- `tracer.Start(ctx, name)` with the SDK's default sampler
(`ParentBased(AlwaysSample)`): the new span joins the trace of the span in
`ctx`, or starts a new trace if `ctx` has none. Returns the derived context and
the handle of the new span. -/
def tracerStart (env : Env) (σ : World) (ctx : Context) (name : String) :
    World × Context × Nat :=
  let sc : SpanContext := childSpanContext env σ ctx
  ({ σ with nextSpan := σ.nextSpan + 1,
            events := σ.events ++ [.start σ.nextSpan name sc ctx.span] },
   { ctx with span := some sc }, σ.nextSpan)

/-- The `traceparent` value `TraceContext.Inject` writes for a span context. -/
def traceparent (sc : SpanContext) : String :=
  "00-" ++ sc.traceID ++ "-" ++ sc.spanID ++ "-" ++ (if sc.sampled then "01" else "00")

/-- `otel.GetTextMapPropagator().Inject(ctx, propagation.HeaderCarrier(h))` for
the composite propagator installed by `initTracer`: TraceContext, then
Baggage. -/
def inject (ctx : Context) (h : Header) : Header :=
  let h :=
    match ctx.span with
    | none => h
    | some sc =>
      let h := if sc.traceState != "" then h.set "Tracestate" sc.traceState else h
      h.set "Traceparent" (traceparent sc)
  if ctx.baggage != "" then h.set "Baggage" ctx.baggage else h

namespace ServiceA

/-- `isValidCEP` of service-a/main.go. -/
def isValidCEP (cep : String) : Bool := MatchString cepPattern cep

/-- The constant `serviceBURL` of `handleCEP`. -/
def serviceBURL : String := "http://service-b:8081/weather"

/-- The request `handleCEP` hands to `client.Do` for the decoded body `req`
when its span context is `ctx`. -/
def forwardedRequest (ctx : Context) (req : CEPRequest) : OutboundRequest :=
  { method := "POST", url := serviceBURL,
    header := inject ctx (Header.empty.set "Content-Type" "application/json"),
    body := some req }

/-- The body of `handleCEP` after its span has been started (lines 69-111). -/
def handleCEPBody (env : Env) (r : Request) (ctx : Context) (w : ResponseWriter) (σ : World) :
    ResponseWriter × World :=
  if r.method != "POST" then
    (httpError w "Method not allowed" 405, σ)
  else
    match env.decodeCEPRequest r.body with
    | .error _ => (httpError w "Invalid request body" 400, σ)
    | .ok req =>
      if !isValidCEP req.CEP then
        let w := w.setHeader "Content-Type" "application/json"
        let w := w.writeHeader 422
        (w.write (.encoded (.errorResponse ⟨"invalid zipcode"⟩)), σ)
      else
        match newRequestWithContext ctx "POST" serviceBURL (some req) with
        | .error _ => (httpError w "Failed to create request" 500, σ)
        | .ok httpReq =>
          let httpReq :=
            { httpReq with header := httpReq.header.set "Content-Type" "application/json" }
          let httpReq := { httpReq with header := inject ctx httpReq.header }
          let σ := σ.send httpReq
          match env.clientDo httpReq with
          | .error _ => (httpError w "Service B unavailable" 500, σ)
          | .ok resp =>
            let w := w.setHeader "Content-Type" (resp.header.get "Content-Type")
            let w := w.writeHeader resp.statusCode
            (w.write (.text resp.body), σ)

/-- `handleCEP` of service-a/main.go: the span is started from `r.Context()`
and ended by the deferred `span.End()` on every path. -/
def handleCEP (env : Env) (r : Request) (σ : World) : ResponseWriter × World :=
  let (σ, ctx, span) := tracerStart env σ r.ctx "handleCEP"
  let (w, σ) := handleCEPBody env r ctx ResponseWriter.new σ
  (w, σ.emit (.endSpan span))

end ServiceA

namespace ServiceB

/-- `isValidCEP` of service-b/main.go. -/
def isValidCEP (cep : String) : Bool := MatchString cepPattern cep

/-- The URL `fmt.Sprintf("https://viacep.com.br/ws/%s/json/", cep)`. -/
def directoryURL (cep : String) : String := "https://viacep.com.br/ws/" ++ cep ++ "/json/"

/-- The API key of `fetchTemperature`: the environment variable, or the
placeholder if it is empty. -/
def apiKey (env : Env) : String :=
  if env.getenv "WEATHER_API_KEY" == "" then "YOUR_DEFAULT_API_KEY"
  else env.getenv "WEATHER_API_KEY"

/-- The URL
`fmt.Sprintf("http://api.weatherapi.com/v1/current.json?key=%s&q=%s", apiKey, city)`. -/
def weatherURL (env : Env) (city : String) : String :=
  "http://api.weatherapi.com/v1/current.json?key=" ++ apiKey env ++ "&q=" ++ city

/-- The body of `fetchCityFromCEP` after its span has been started
(lines 80-119). -/
def fetchCityFromCEPBody (env : Env) (ctx : Context) (span : Nat) (cep : String) (σ : World) :
    Except String String × World :=
  let url := directoryURL cep
  match newRequestWithContext ctx "GET" url none with
  | .error err => (.error err, σ.fail span err)
  | .ok req =>
    let σ := σ.send req
    match env.clientDo req with
    | .error err => (.error err, σ.fail span err)
    | .ok resp =>
      if resp.statusCode != 200 then
        let err := "viaCEP returned status " ++ toString resp.statusCode
        (.error err, σ.fail span err)
      else
        match env.decodeViaCEPResponse resp.body with
        | .error err => (.error err, σ.fail span err)
        | .ok viaCEPResp =>
          if viaCEPResp.Erro then
            let err := "CEP not found"
            (.error err, σ.fail span err)
          else
            (.ok viaCEPResp.Localidade,
              σ.emit (.setAttributes span "city" (.string viaCEPResp.Localidade)))

/-- `fetchCityFromCEP` of service-b/main.go. -/
def fetchCityFromCEP (env : Env) (ctx : Context) (cep : String) (σ : World) :
    Except String String × World :=
  let (σ, ctx, span) := tracerStart env σ ctx "fetchCityFromCEP"
  let (res, σ) := fetchCityFromCEPBody env ctx span cep σ
  (res, σ.emit (.endSpan span))

/-- The body of `fetchTemperature` after its span has been started
(lines 127-164). -/
def fetchTemperatureBody (env : Env) (ctx : Context) (span : Nat) (city : String) (σ : World) :
    Except String Float × World :=
  let url := weatherURL env city
  match newRequestWithContext ctx "GET" url none with
  | .error err => (.error err, σ.fail span err)
  | .ok req =>
    let σ := σ.send req
    match env.clientDo req with
    | .error err => (.error err, σ.fail span err)
    | .ok resp =>
      if resp.statusCode != 200 then
        let err := "weatherAPI returned status " ++ toString resp.statusCode
        (.error err, σ.fail span err)
      else
        match env.decodeWeatherAPIResponse resp.body with
        | .error err => (.error err, σ.fail span err)
        | .ok weatherResp =>
          (.ok weatherResp.TempC,
            σ.emit (.setAttributes span "tempC" (.float64 weatherResp.TempC)))

/-- `fetchTemperature` of service-b/main.go. -/
def fetchTemperature (env : Env) (ctx : Context) (city : String) (σ : World) :
    Except String Float × World :=
  let (σ, ctx, span) := tracerStart env σ ctx "fetchTemperature"
  let (res, σ) := fetchTemperatureBody env ctx span city σ
  (res, σ.emit (.endSpan span))

/-- The body of `handleWeather` after its span has been started
(lines 174-220). -/
def handleWeatherBody (env : Env) (r : Request) (ctx : Context) (span : Nat)
    (w : ResponseWriter) (σ : World) : ResponseWriter × World :=
  if r.method != "POST" then
    (httpError w "Method not allowed" 405, σ)
  else
    match env.decodeCEPRequest r.body with
    | .error _ => (httpError w "Invalid request body" 400, σ)
    | .ok req =>
      let σ := σ.emit (.setAttributes span "cep" (.string req.CEP))
      if !isValidCEP req.CEP then
        let w := w.setHeader "Content-Type" "application/json"
        let w := w.writeHeader 422
        (w.write (.encoded (.errorResponse ⟨"invalid zipcode"⟩)), σ)
      else
        match fetchCityFromCEP env ctx req.CEP σ with
        | (.error _, σ) =>
          let w := w.setHeader "Content-Type" "application/json"
          let w := w.writeHeader 404
          (w.write (.encoded (.errorResponse ⟨"can not find zipcode"⟩)), σ)
        | (.ok city, σ) =>
          match fetchTemperature env ctx city σ with
          | (.error _, σ) => (httpError w "Failed to fetch temperature" 500, σ)
          | (.ok tempC, σ) =>
            let tempF := tempC * 1.8 + 32
            let tempK := tempC + 273
            let response : WeatherResponse :=
              { City := city, TempC := tempC, TempF := tempF, TempK := tempK }
            let w := w.setHeader "Content-Type" "application/json"
            let w := w.writeHeader 200
            (w.write (.encoded (.weatherResponse response)), σ)

/-- `handleWeather` of service-b/main.go: the span is started from
`r.Context()` and ended by the deferred `span.End()` on every path. -/
def handleWeather (env : Env) (r : Request) (σ : World) : ResponseWriter × World :=
  let (σ, ctx, span) := tracerStart env σ r.ctx "handleWeather"
  let (w, σ) := handleWeatherBody env r ctx span ResponseWriter.new σ
  (w, σ.emit (.endSpan span))

end ServiceB

/-! ## float64 arithmetic

The handlers carry temperatures as Lean `Float`s, which are IEEE 754 binary64
values whose operations the kernel cannot evaluate. `Binary64` is the same
arithmetic made explicit: every operation computes the exact result and rounds
it to the nearest representable value, ties to even. The conversion of
`handleWeather` (lines 208-209) is written once, over an arithmetic, and read
in both. -/

/-- The position of the highest set bit: `floorLog2 n n` is the floor of the
binary logarithm of `n` for `n > 0`. The first argument bounds the recursion. -/
def floorLog2 : Nat → Nat → Nat
  | 0, _ => 0
  | fuel + 1, n => if n < 2 then 0 else floorLog2 fuel (n / 2) + 1

/-- A float64 value. `finite neg m e` is `(-1)^neg * m * 2^e`; the values the
operations return are normalised: `2^52 ≤ m < 2^53` and `-1074 ≤ e ≤ 971`, or
`0 < m < 2^52` and `e = -1074` (subnormal). -/
inductive Binary64 where
  | nan
  | inf (neg : Bool)
  | zero (neg : Bool)
  | finite (neg : Bool) (m : Nat) (e : Int)
deriving DecidableEq, Repr

/-- Rounding to nearest, ties to even, of the real number `n / d * 2^e` (with
`d > 0`) carrying the sign `neg`: `top` is the exponent of its leading bit,
`ex` the exponent of the last mantissa bit kept, `q` the mantissa, rounded up
when the remainder is more than half, or exactly half with `q` odd. A result
beyond the largest finite value is an infinity. -/
def Binary64.round (neg : Bool) (n d : Nat) (e : Int) : Binary64 :=
  if n = 0 then .zero neg
  else
    let top : Int :=
      (if d * 2 ^ floorLog2 n n ≤ n * 2 ^ floorLog2 d d then
        (floorLog2 n n : Int) - floorLog2 d d
      else (floorLog2 n n : Int) - floorLog2 d d - 1) + e
    let ex : Int := max (top - 52) (-1074)
    let shift : Int := e - ex
    let num : Nat := if 0 ≤ shift then n * 2 ^ shift.toNat else n
    let den : Nat := if 0 ≤ shift then d else d * 2 ^ (-shift).toNat
    let q : Nat := num / den
    let r : Nat := num % den
    let q : Nat := if den < 2 * r || (2 * r == den && q % 2 == 1) then q + 1 else q
    if q = 0 then .zero neg
    else if q = 2 ^ 53 then (if 971 < ex + 1 then .inf neg else .finite neg (2 ^ 52) (ex + 1))
    else if 971 < ex then .inf neg
    else .finite neg q ex

/-- The float64 value of a natural number literal or of a JSON integer. -/
def Binary64.ofNat (n : Nat) : Binary64 := Binary64.round false n 1 0

/-- The float64 value of the decimal constant `m / 10^k`, as the Go compiler
rounds an untyped constant converted to float64. -/
def Binary64.ofDecimal (m k : Nat) : Binary64 := Binary64.round false m (10 ^ k) 0

/-- The integer `m` with the sign `neg`. -/
def Binary64.signed (neg : Bool) (m : Nat) : Int := if neg then -(m : Int) else m

/-- The rounded sum of the two nonzero numbers `(-1)^s * m * 2^e` and
`(-1)^t * n * 2^f`; an exact zero sum is `+0`. -/
def Binary64.sum (s : Bool) (m : Nat) (e : Int) (t : Bool) (n : Nat) (f : Int) : Binary64 :=
  let g : Int := min e f
  let z : Int :=
    Binary64.signed s (m * 2 ^ (e - g).toNat) + Binary64.signed t (n * 2 ^ (f - g).toNat)
  if z = 0 then .zero false else Binary64.round (decide (z < 0)) z.natAbs 1 g

/-- The float64 product `x * y`. -/
def Binary64.mul : Binary64 → Binary64 → Binary64
  | .nan, _ => .nan
  | _, .nan => .nan
  | .inf _, .zero _ => .nan
  | .zero _, .inf _ => .nan
  | .inf s, .inf t => .inf (s != t)
  | .inf s, .finite t _ _ => .inf (s != t)
  | .finite s _ _, .inf t => .inf (s != t)
  | .zero s, .zero t => .zero (s != t)
  | .zero s, .finite t _ _ => .zero (s != t)
  | .finite s _ _, .zero t => .zero (s != t)
  | .finite s m e, .finite t n f => Binary64.round (s != t) (m * n) 1 (e + f)

/-- The float64 sum `x + y`. -/
def Binary64.add : Binary64 → Binary64 → Binary64
  | .nan, _ => .nan
  | _, .nan => .nan
  | .inf s, .inf t => if s = t then .inf s else .nan
  | .inf s, _ => .inf s
  | _, .inf t => .inf t
  | .zero s, .zero t => .zero (s && t)
  | .zero _, .finite t n f => Binary64.round t n 1 f
  | .finite s m e, .zero _ => Binary64.round s m 1 e
  | .finite s m e, .finite t n f => Binary64.sum s m e t n f

/-- The fused multiply-add `x * y + z` with a single rounding, which the Go
specification lets a compiler use for `x*y + z`. -/
def Binary64.fma : Binary64 → Binary64 → Binary64 → Binary64
  | .finite s m e, .finite t n f, .finite u p g =>
    Binary64.sum (s != t) (m * n) (e + f) u p g
  | .finite s m e, .finite t n f, .zero _ => Binary64.round (s != t) (m * n) 1 (e + f)
  | .finite _ _ _, .finite _ _ _, .inf u => .inf u
  | x, y, z => Binary64.add (Binary64.mul x y) z

/-- The operations and constants that lines 208-209 of `handleWeather` use. -/
structure Arith (F : Type) where
  mul : F → F → F
  add : F → F → F
  /-- The constant `1.8`. -/
  c1_8 : F
  /-- The constant `32`. -/
  c32 : F
  /-- The constant `273`. -/
  c273 : F

/-- The arithmetic of the handler's float type. -/
def Arith.float : Arith Float :=
  { mul := fun x y => x * y, add := fun x y => x + y, c1_8 := 1.8, c32 := 32, c273 := 273 }

/-- The arithmetic of float64, explicitly. -/
def Arith.binary64 : Arith Binary64 :=
  { mul := Binary64.mul, add := Binary64.add, c1_8 := Binary64.ofDecimal 18 1,
    c32 := Binary64.ofNat 32, c273 := Binary64.ofNat 273 }

/-- Line 208: `tempF := tempC*1.8 + 32`. -/
def toFahrenheit {F : Type} (a : Arith F) (tempC : F) : F := a.add (a.mul tempC a.c1_8) a.c32

/-- Line 209: `tempK := tempC + 273`. -/
def toKelvin {F : Type} (a : Arith F) (tempC : F) : F := a.add tempC a.c273

/-! ## Observations on the log and concrete scenarios -/

/-- The event is the start of a span with this name. -/
def SpanEvent.startsNamed (name : String) : SpanEvent → Bool
  | .start _ n _ _ => n == name
  | _ => false

/-- The event is the `End` call of this span. -/
def SpanEvent.endsSpan (span : Nat) : SpanEvent → Bool
  | .endSpan s => s == span
  | _ => false

/-- The event is a `RecordError` or a `SetStatus(codes.Error, _)` call on this
span. -/
def SpanEvent.marksError (span : Nat) : SpanEvent → Bool
  | .recordError s _ => s == span
  | .setStatusError s _ => s == span
  | _ => false

/-- The request body of scenario S1. -/
def bodyS1 : String := "\x7b\"cep\":\"01310100\"\x7d"

/-- The request body of scenario S2. -/
def bodyS2 : String := "\x7b\"cep\":\"1234\"\x7d"

/-- Scenario S1 of the specification: the JSON decoders read the fixture
payloads, the Resolver answers the Edge service with the S1 envelope, the
directory and the weather provider answer 200. -/
def scenarioS1 : Env where
  newTraceID := fun _ => "0af7651916cd43dd8448eb211c80319c"
  newSpanID := fun n =>
    if n == 0 then "b7ad6b7169203331" else if n == 1 then "53995c3f42cd8ad8"
    else "d1f2a3b4c5d6e7f8"
  decodeCEPRequest := fun body =>
    if body == bodyS1 then .ok ⟨"01310100"⟩
    else if body == bodyS2 then .ok ⟨"1234"⟩
    else .error "invalid character"
  clientDo := fun q =>
    if q.url == ServiceA.serviceBURL then
      .ok ⟨200, ⟨[("Content-Type", "application/json")]⟩,
        "\x7b\"city\":\"São Paulo\",\"temp_C\":25,\"temp_F\":77,\"temp_K\":298\x7d\n"⟩
    else if q.url == "https://viacep.com.br/ws/01310100/json/" then
      .ok ⟨200, ⟨[("Content-Type", "application/json")]⟩,
        "\x7b\"localidade\":\"São Paulo\",\"erro\":false\x7d"⟩
    else
      .ok ⟨200, ⟨[("Content-Type", "application/json")]⟩,
        "\x7b\"current\":\x7b\"temp_c\":25.0\x7d\x7d"⟩
  decodeViaCEPResponse := fun _ => .ok ⟨"São Paulo", false⟩
  decodeWeatherAPIResponse := fun _ => .ok ⟨25.0⟩
  getenv := fun _ => "k"

/-- Scenario S1 with a Resolver that cannot be reached and a directory that
cannot be reached: every `client.Do` is a transport error. -/
def scenarioOffline : Env :=
  { scenarioS1 with clientDo := fun _ => .error "dial tcp: connection refused" }

/-- Scenario S1 with a directory that answers 503. -/
def scenarioDirectory503 : Env :=
  { scenarioS1 with
    clientDo := fun q =>
      if q.url == "https://viacep.com.br/ws/01310100/json/" then
        .ok ⟨503, Header.empty, "Service Unavailable"⟩
      else scenarioS1.clientDo q }

/-- Scenario S1 with a Resolver whose status line is `HTTP/1.1 099 Odd`: the
client parses the three digits and returns status code 99. -/
def scenarioStatus99 : Env :=
  { scenarioS1 with
    clientDo := fun q =>
      if q.url == ServiceA.serviceBURL then
        .ok ⟨99, ⟨[("Content-Type", "application/json")]⟩, "odd"⟩
      else scenarioS1.clientDo q }

/-- Scenario S5: the directory answers, the weather provider answers 500. -/
def scenarioS5 : Env :=
  { scenarioS1 with
    clientDo := fun q =>
      if q.url == "https://viacep.com.br/ws/01310100/json/" then scenarioS1.clientDo q
      else .ok ⟨500, Header.empty, ""⟩ }

/-- A POST of the S1 body whose headers carry a well-formed `traceparent` of
another trace; the request context is the one the plain server provides. -/
def requestS1 : Request :=
  { method := "POST",
    header := ⟨[("Content-Type", "application/json"),
      ("Traceparent", "00-4bf92f3577b34da6a3ce929d0e0e4736-00f067aa0ba902b7-01")]⟩,
    body := bodyS1,
    ctx := Context.background }

/-- Scenario S2: a POST with a four-digit cep. -/
def requestS2 : Request :=
  { method := "POST", header := ⟨[("Content-Type", "application/json")]⟩,
    body := bodyS2, ctx := Context.background }

/-- Scenario S6: a GET. -/
def requestS6 : Request :=
  { method := "GET", header := Header.empty, body := "", ctx := Context.background }

/-! ## Theorems -/

theorem search_beginText_false (r : Regex) (cs : List Char) :
    (Regex.cat .beginText r).search false cs = false := by
  induction cs with
  | nil => simp [Regex.search, Regex.matchAt]
  | cons c cs ih => simp [Regex.search, Regex.matchAt, ih]

theorem digit_matchAt_nil (b : Bool) : Regex.digit.matchAt (b, []) = [] := rfl

theorem digit_matchAt_cons (b : Bool) (c : Char) (cs : List Char) :
    Regex.digit.matchAt (b, c :: cs) = if isPerlDigit c = true then [(false, cs)] else [] := rfl

theorem repeatMatch_digit (n : Nat) (b : Bool) (cs : List Char) :
    repeatMatch Regex.digit.matchAt n (b, cs) =
      if n ≤ cs.length ∧ ∀ c ∈ cs.take n, isPerlDigit c = true then
        [(if n = 0 then b else false, cs.drop n)] else [] := by
  induction n generalizing b cs with
  | zero => simp [repeatMatch]
  | succ n ih =>
    cases cs with
    | nil => simp [repeatMatch, digit_matchAt_nil]
    | cons c cs =>
      rw [repeatMatch, digit_matchAt_cons]
      by_cases hc : isPerlDigit c = true
      · rw [if_pos hc, List.flatMap_singleton, ih]
        by_cases hn : n ≤ cs.length ∧ ∀ c ∈ cs.take n, isPerlDigit c = true
        · have : n + 1 ≤ (c :: cs).length ∧ ∀ d ∈ (c :: cs).take (n + 1), isPerlDigit d = true := by
            refine ⟨by simpa using hn.1, ?_⟩
            intro d hd
            rw [List.take_succ_cons, List.mem_cons] at hd
            rcases hd with rfl | hd
            · exact hc
            · exact hn.2 d hd
          rw [if_pos hn, if_pos this]
          by_cases h0 : n = 0 <;> simp [h0]
        · have : ¬ (n + 1 ≤ (c :: cs).length ∧
              ∀ d ∈ (c :: cs).take (n + 1), isPerlDigit d = true) := by
            rintro ⟨h1, h2⟩
            apply hn
            refine ⟨by simpa using h1, ?_⟩
            intro d hd
            exact h2 d (by rw [List.take_succ_cons]; exact List.mem_cons_of_mem _ hd)
          rw [if_neg hn, if_neg this]
      · have : ¬ (n + 1 ≤ (c :: cs).length ∧
            ∀ d ∈ (c :: cs).take (n + 1), isPerlDigit d = true) := by
          rintro ⟨_, h2⟩
          exact hc (h2 c (by rw [List.take_succ_cons]; exact List.mem_cons_self _ _))
        rw [if_neg hc, if_neg this]
        rfl

theorem matchAt_rep_digit (n : Nat) (b : Bool) (cs : List Char) :
    (Regex.rep n .digit).matchAt (b, cs) =
      if n ≤ cs.length ∧ ∀ c ∈ cs.take n, isPerlDigit c = true then
        [(if n = 0 then b else false, cs.drop n)] else [] :=
  repeatMatch_digit n b cs

theorem matchAt_cepPattern (b : Bool) (cs : List Char) :
    cepPattern.matchAt (b, cs) =
      if b = true ∧ cs.length = 8 ∧ ∀ c ∈ cs, isPerlDigit c = true then [(false, [])] else [] := by
  have h1 : cepPattern.matchAt (b, cs) =
      (Regex.beginText.matchAt (b, cs)).flatMap
        (fun p => ((Regex.rep 8 .digit).matchAt p).flatMap Regex.endText.matchAt) := rfl
  rw [h1]
  cases b with
  | false => simp [Regex.matchAt]
  | true =>
    have h2 : Regex.beginText.matchAt (true, cs) = [(true, cs)] := rfl
    rw [h2, List.flatMap_singleton, matchAt_rep_digit]
    by_cases h8 : 8 ≤ cs.length ∧ ∀ c ∈ cs.take 8, isPerlDigit c = true
    · rw [if_pos h8]
      by_cases hl : cs.length = 8
      · have ht : cs.take 8 = cs := by rw [← hl]; exact List.take_length cs
        have hd : cs.drop 8 = [] := by rw [← hl]; exact List.drop_length cs
        rw [ht] at h8
        have hall : true = true ∧ cs.length = 8 ∧ ∀ c ∈ cs, isPerlDigit c = true :=
          ⟨rfl, hl, h8.2⟩
        rw [if_pos hall, hd]
        rfl
      · have hd : cs.drop 8 ≠ [] := by
          intro h
          have := List.drop_eq_nil_iff.mp h
          omega
        have hno : ¬ (true = true ∧ cs.length = 8 ∧ ∀ c ∈ cs, isPerlDigit c = true) :=
          fun h => hl h.2.1
        rw [if_neg hno]
        cases hdd : cs.drop 8 with
        | nil => exact absurd hdd hd
        | cons d ds => rfl
    · rw [if_neg h8]
      have : ¬ (cs.length = 8 ∧ ∀ c ∈ cs, isPerlDigit c = true) := by
        rintro ⟨hl, hall⟩
        apply h8
        refine ⟨by omega, ?_⟩
        intro c hc
        exact hall c (List.mem_of_mem_take hc)
      simp [this]

theorem matchString_cepPattern (s : String) :
    MatchString cepPattern s = true ↔
      s.length = 8 ∧ ∀ c ∈ s.data, isPerlDigit c = true := by
  have key : ∀ cs : List Char, cepPattern.search true cs = true ↔
      cs.length = 8 ∧ ∀ c ∈ cs, isPerlDigit c = true := by
    intro cs
    have hf : ∀ ds : List Char, cepPattern.search false ds = false :=
      fun ds => search_beginText_false _ ds
    cases cs with
    | nil => simp [Regex.search, matchAt_cepPattern]
    | cons c cs =>
      rw [Regex.search, hf, matchAt_cepPattern]
      by_cases h : (c :: cs).length = 8 ∧ ∀ d ∈ c :: cs, isPerlDigit d = true
      · simp [h]
      · simp [h]
  cases s with
  | mk cs => exact key cs

theorem isValidCEP_digits (s : String) :
    ServiceA.isValidCEP s = true ↔ s.length = 8 ∧ ∀ c ∈ s.data, '0' ≤ c ∧ c ≤ '9' := by
  rw [ServiceA.isValidCEP, matchString_cepPattern]
  have hd : ∀ c : Char, isPerlDigit c = true ↔ ('0' ≤ c ∧ c ≤ '9') := by
    intro c
    simp only [isPerlDigit, Bool.and_eq_true, decide_eq_true_eq]
    rfl
  simp only [hd]

/-- C2: `isValidCEP` (the same function in both services) accepts a string
exactly when it is eight characters long and every character is an ASCII
decimal digit; the empty string, other lengths, a dash, a space, a letter, a
non-ASCII digit and a trailing newline after eight digits are all rejected. -/
theorem isValidCEP_iff_eight_ascii_digits :
    (∀ s : String,
      (ServiceA.isValidCEP s = true ↔
        s.length = 8 ∧ ∀ c ∈ s.data, '0' ≤ c ∧ c ≤ '9') ∧
      ServiceB.isValidCEP s = ServiceA.isValidCEP s) ∧
    ServiceA.isValidCEP "01310100" = true ∧
    ServiceA.isValidCEP "" = false ∧
    ServiceA.isValidCEP "1234" = false ∧
    ServiceA.isValidCEP "123456789" = false ∧
    ServiceA.isValidCEP "01310-100" = false ∧
    ServiceA.isValidCEP "0131-100" = false ∧
    ServiceA.isValidCEP "0131 100" = false ∧
    ServiceA.isValidCEP "abcdefgh" = false ∧
    ServiceA.isValidCEP "0131010٣" = false ∧
    ServiceA.isValidCEP "01310100\n" = false := by
  refine ⟨?_, by decide, by decide, by decide, by decide, by decide, by decide, by decide,
    by decide, by decide, by decide⟩
  intro s
  exact ⟨isValidCEP_digits s, rfl⟩

/-! ### Headers -/

theorem Header.get_set (h : Header) (key value : String) :
    (h.set key value).get key = value := by
  simp [Header.get, Header.set]

theorem Header.get_set_ne (h : Header) (key other value : String) (hne : other ≠ key) :
    (h.set other value).get key = h.get key := by
  have hfind : ∀ l : List (String × String),
      (l.filter (fun kv => kv.1 != other)).find? (fun kv => kv.1 == key) =
        l.find? (fun kv => kv.1 == key) := by
    intro l
    induction l with
    | nil => rfl
    | cons kv l ih =>
      by_cases hk : (kv.1 == key) = true
      · have hno : (kv.1 != other) = true := by
          have h1 : kv.1 = key := by simpa using hk
          have h2 : kv.1 ≠ other := fun h => hne (h ▸ h1)
          simpa using h2
        rw [List.filter_cons, if_pos hno]
        simp only [List.find?_cons, hk]
      · by_cases ho : (kv.1 != other) = true
        · rw [List.filter_cons, if_pos ho]
          simp only [List.find?_cons, hk, ih]
        · rw [List.filter_cons, if_neg ho]
          simp only [List.find?_cons, hk, ih]
  have hfirst : ¬ (((other, value) : String × String).1 == key) = true := by simpa using hne
  simp only [Header.get, Header.set, List.find?_cons, hfirst, hfind]

/-- The `Traceparent` entry `inject` leaves in a header map is the one of the
span in the context. -/
theorem inject_traceparent (sc : SpanContext) (baggage : String) (h : Header) :
    (inject ⟨some sc, baggage⟩ h).get "Traceparent" = traceparent sc := by
  unfold inject
  simp only []
  split
  · rw [Header.get_set_ne _ _ _ _ (by decide), Header.get_set]
  · rw [Header.get_set]

/-! ### The tracing calls of the two fetch functions -/

@[simp] theorem World.emit_events (σ : World) (e : SpanEvent) :
    (σ.emit e).events = σ.events ++ [e] := rfl

@[simp] theorem World.emit_nextSpan (σ : World) (e : SpanEvent) :
    (σ.emit e).nextSpan = σ.nextSpan := rfl

@[simp] theorem World.emit_sent (σ : World) (e : SpanEvent) :
    (σ.emit e).sent = σ.sent := rfl

@[simp] theorem World.send_events (σ : World) (q : OutboundRequest) :
    (σ.send q).events = σ.events := rfl

@[simp] theorem World.send_nextSpan (σ : World) (q : OutboundRequest) :
    (σ.send q).nextSpan = σ.nextSpan := rfl

@[simp] theorem World.send_sent (σ : World) (q : OutboundRequest) :
    (σ.send q).sent = σ.sent ++ [q] := rfl

@[simp] theorem World.fail_events (σ : World) (span : Nat) (err : String) :
    (σ.fail span err).events =
      σ.events ++ [.recordError span err, .setStatusError span err] := by
  simp [World.fail]

@[simp] theorem World.fail_nextSpan (σ : World) (span : Nat) (err : String) :
    (σ.fail span err).nextSpan = σ.nextSpan := rfl

@[simp] theorem World.fail_sent (σ : World) (span : Nat) (err : String) :
    (σ.fail span err).sent = σ.sent := rfl

theorem tracerStart_eq (env : Env) (σ : World) (ctx : Context) (name : String) :
    tracerStart env σ ctx name =
      (⟨σ.nextSpan + 1,
          σ.events ++ [.start σ.nextSpan name (childSpanContext env σ ctx) ctx.span], σ.sent⟩,
        ⟨some (childSpanContext env σ ctx), ctx.baggage⟩, σ.nextSpan) := rfl

namespace ServiceB

/-- What `fetchCityFromCEP` leaves in the log between the start and the end of
its span: the `city` attribute on success, the recorded error and the error
status on failure. -/
theorem fetchCityFromCEPBody_trace (env : Env) (ctx : Context) (span : Nat) (cep : String)
    (σ : World) :
    (fetchCityFromCEPBody env ctx span cep σ).2.nextSpan = σ.nextSpan ∧
    ((∃ city, (fetchCityFromCEPBody env ctx span cep σ).1 = .ok city ∧
        (fetchCityFromCEPBody env ctx span cep σ).2.events =
          σ.events ++ [.setAttributes span "city" (.string city)]) ∨
      (∃ e, (fetchCityFromCEPBody env ctx span cep σ).1 = .error e ∧
        (fetchCityFromCEPBody env ctx span cep σ).2.events =
          σ.events ++ [.recordError span e, .setStatusError span e])) := by
  unfold fetchCityFromCEPBody
  simp only
  repeat' split
  all_goals simp

theorem fetchTemperatureBody_trace (env : Env) (ctx : Context) (span : Nat) (city : String)
    (σ : World) :
    (fetchTemperatureBody env ctx span city σ).2.nextSpan = σ.nextSpan ∧
    ((∃ tempC, (fetchTemperatureBody env ctx span city σ).1 = .ok tempC ∧
        (fetchTemperatureBody env ctx span city σ).2.events =
          σ.events ++ [.setAttributes span "tempC" (.float64 tempC)]) ∨
      (∃ e, (fetchTemperatureBody env ctx span city σ).1 = .error e ∧
        (fetchTemperatureBody env ctx span city σ).2.events =
          σ.events ++ [.recordError span e, .setStatusError span e])) := by
  unfold fetchTemperatureBody
  simp only
  repeat' split
  all_goals simp

end ServiceB

namespace ServiceB

theorem fetchCityFromCEP_trace (env : Env) (ctx : Context) (cep : String) (σ : World) :
    (fetchCityFromCEP env ctx cep σ).2.nextSpan = σ.nextSpan + 1 ∧
    ((∃ city, (fetchCityFromCEP env ctx cep σ).1 = .ok city ∧
        (fetchCityFromCEP env ctx cep σ).2.events =
          σ.events ++ [.start σ.nextSpan "fetchCityFromCEP" (childSpanContext env σ ctx) ctx.span,
            .setAttributes σ.nextSpan "city" (.string city), .endSpan σ.nextSpan]) ∨
      (∃ e, (fetchCityFromCEP env ctx cep σ).1 = .error e ∧
        (fetchCityFromCEP env ctx cep σ).2.events =
          σ.events ++ [.start σ.nextSpan "fetchCityFromCEP" (childSpanContext env σ ctx) ctx.span,
            .recordError σ.nextSpan e, .setStatusError σ.nextSpan e, .endSpan σ.nextSpan])) := by
  have hb := fetchCityFromCEPBody_trace env (tracerStart env σ ctx "fetchCityFromCEP").2.1
    (tracerStart env σ ctx "fetchCityFromCEP").2.2 cep (tracerStart env σ ctx "fetchCityFromCEP").1
  have hf : fetchCityFromCEP env ctx cep σ =
      ((fetchCityFromCEPBody env (tracerStart env σ ctx "fetchCityFromCEP").2.1
          (tracerStart env σ ctx "fetchCityFromCEP").2.2 cep
          (tracerStart env σ ctx "fetchCityFromCEP").1).1,
        (fetchCityFromCEPBody env (tracerStart env σ ctx "fetchCityFromCEP").2.1
          (tracerStart env σ ctx "fetchCityFromCEP").2.2 cep
          (tracerStart env σ ctx "fetchCityFromCEP").1).2.emit
          (.endSpan (tracerStart env σ ctx "fetchCityFromCEP").2.2)) := rfl
  rw [hf]
  rw [tracerStart_eq] at hb ⊢
  obtain ⟨hn, hcase⟩ := hb
  refine ⟨by simpa using hn, ?_⟩
  rcases hcase with ⟨city, h1, h2⟩ | ⟨e, h1, h2⟩
  · exact Or.inl ⟨city, h1, by simp [h2]⟩
  · exact Or.inr ⟨e, h1, by simp [h2]⟩

theorem fetchTemperature_trace (env : Env) (ctx : Context) (city : String) (σ : World) :
    (fetchTemperature env ctx city σ).2.nextSpan = σ.nextSpan + 1 ∧
    ((∃ tempC, (fetchTemperature env ctx city σ).1 = .ok tempC ∧
        (fetchTemperature env ctx city σ).2.events =
          σ.events ++ [.start σ.nextSpan "fetchTemperature" (childSpanContext env σ ctx) ctx.span,
            .setAttributes σ.nextSpan "tempC" (.float64 tempC), .endSpan σ.nextSpan]) ∨
      (∃ e, (fetchTemperature env ctx city σ).1 = .error e ∧
        (fetchTemperature env ctx city σ).2.events =
          σ.events ++ [.start σ.nextSpan "fetchTemperature" (childSpanContext env σ ctx) ctx.span,
            .recordError σ.nextSpan e, .setStatusError σ.nextSpan e, .endSpan σ.nextSpan])) := by
  have hb := fetchTemperatureBody_trace env (tracerStart env σ ctx "fetchTemperature").2.1
    (tracerStart env σ ctx "fetchTemperature").2.2 city (tracerStart env σ ctx "fetchTemperature").1
  have hf : fetchTemperature env ctx city σ =
      ((fetchTemperatureBody env (tracerStart env σ ctx "fetchTemperature").2.1
          (tracerStart env σ ctx "fetchTemperature").2.2 city
          (tracerStart env σ ctx "fetchTemperature").1).1,
        (fetchTemperatureBody env (tracerStart env σ ctx "fetchTemperature").2.1
          (tracerStart env σ ctx "fetchTemperature").2.2 city
          (tracerStart env σ ctx "fetchTemperature").1).2.emit
          (.endSpan (tracerStart env σ ctx "fetchTemperature").2.2)) := rfl
  rw [hf]
  rw [tracerStart_eq] at hb ⊢
  obtain ⟨hn, hcase⟩ := hb
  refine ⟨by simpa using hn, ?_⟩
  rcases hcase with ⟨tempC, h1, h2⟩ | ⟨e, h1, h2⟩
  · exact Or.inl ⟨tempC, h1, by simp [h2]⟩
  · exact Or.inr ⟨e, h1, by simp [h2]⟩

theorem fetchCityFromCEP_trace_ex (env : Env) (ctx : Context) (cep : String) (σ : World) :
    ∃ sc, (fetchCityFromCEP env ctx cep σ).2.nextSpan = σ.nextSpan + 1 ∧
    ((∃ city, (fetchCityFromCEP env ctx cep σ).1 = .ok city ∧
        (fetchCityFromCEP env ctx cep σ).2.events =
          σ.events ++ [.start σ.nextSpan "fetchCityFromCEP" sc ctx.span,
            .setAttributes σ.nextSpan "city" (.string city), .endSpan σ.nextSpan]) ∨
      (∃ e, (fetchCityFromCEP env ctx cep σ).1 = .error e ∧
        (fetchCityFromCEP env ctx cep σ).2.events =
          σ.events ++ [.start σ.nextSpan "fetchCityFromCEP" sc ctx.span,
            .recordError σ.nextSpan e, .setStatusError σ.nextSpan e, .endSpan σ.nextSpan])) :=
  ⟨_, fetchCityFromCEP_trace env ctx cep σ⟩

theorem fetchTemperature_trace_ex (env : Env) (ctx : Context) (city : String) (σ : World) :
    ∃ sc, (fetchTemperature env ctx city σ).2.nextSpan = σ.nextSpan + 1 ∧
    ((∃ tempC, (fetchTemperature env ctx city σ).1 = .ok tempC ∧
        (fetchTemperature env ctx city σ).2.events =
          σ.events ++ [.start σ.nextSpan "fetchTemperature" sc ctx.span,
            .setAttributes σ.nextSpan "tempC" (.float64 tempC), .endSpan σ.nextSpan]) ∨
      (∃ e, (fetchTemperature env ctx city σ).1 = .error e ∧
        (fetchTemperature env ctx city σ).2.events =
          σ.events ++ [.start σ.nextSpan "fetchTemperature" sc ctx.span,
            .recordError σ.nextSpan e, .setStatusError σ.nextSpan e, .endSpan σ.nextSpan])) :=
  ⟨_, fetchTemperature_trace env ctx city σ⟩

end ServiceB

/-! ### The paths of `handleWeather` -/

namespace ServiceB

/-- The world, context and span handle right after `tracer.Start` in
`handleWeather`. -/
theorem handleWeather_eq (env : Env) (r : Request) (σ : World) :
    handleWeather env r σ =
      ((handleWeatherBody env r (tracerStart env σ r.ctx "handleWeather").2.1
          (tracerStart env σ r.ctx "handleWeather").2.2 ResponseWriter.new
          (tracerStart env σ r.ctx "handleWeather").1).1,
        (handleWeatherBody env r (tracerStart env σ r.ctx "handleWeather").2.1
          (tracerStart env σ r.ctx "handleWeather").2.2 ResponseWriter.new
          (tracerStart env σ r.ctx "handleWeather").1).2.emit
          (.endSpan (tracerStart env σ r.ctx "handleWeather").2.2)) := rfl

theorem handleWeatherBody_not_post (env : Env) (r : Request) (ctx : Context) (span : Nat)
    (w : ResponseWriter) (σ : World) (h : r.method ≠ "POST") :
    handleWeatherBody env r ctx span w σ = (httpError w "Method not allowed" 405, σ) := by
  simp [handleWeatherBody, h]

theorem handleWeatherBody_bad_json (env : Env) (r : Request) (ctx : Context) (span : Nat)
    (w : ResponseWriter) (σ : World) (h : r.method = "POST") (e : String)
    (hd : env.decodeCEPRequest r.body = .error e) :
    handleWeatherBody env r ctx span w σ = (httpError w "Invalid request body" 400, σ) := by
  simp [handleWeatherBody, h, hd]

theorem handleWeatherBody_invalid_cep (env : Env) (r : Request) (ctx : Context) (span : Nat)
    (w : ResponseWriter) (σ : World) (h : r.method = "POST") (req : CEPRequest)
    (hd : env.decodeCEPRequest r.body = .ok req) (hv : isValidCEP req.CEP = false) :
    handleWeatherBody env r ctx span w σ =
      ((((w.setHeader "Content-Type" "application/json").writeHeader 422).write
          (.encoded (.errorResponse ⟨"invalid zipcode"⟩))),
        σ.emit (.setAttributes span "cep" (.string req.CEP))) := by
  simp [handleWeatherBody, h, hd, hv]

theorem handleWeatherBody_city_error (env : Env) (r : Request) (ctx : Context) (span : Nat)
    (w : ResponseWriter) (σ : World) (h : r.method = "POST") (req : CEPRequest)
    (hd : env.decodeCEPRequest r.body = .ok req) (hv : isValidCEP req.CEP = true)
    (e : String) (σ₂ : World)
    (hc : fetchCityFromCEP env ctx req.CEP
      (σ.emit (.setAttributes span "cep" (.string req.CEP))) = (.error e, σ₂)) :
    handleWeatherBody env r ctx span w σ =
      ((((w.setHeader "Content-Type" "application/json").writeHeader 404).write
          (.encoded (.errorResponse ⟨"can not find zipcode"⟩))), σ₂) := by
  simp [handleWeatherBody, h, hd, hv, hc]

theorem handleWeatherBody_temperature_error (env : Env) (r : Request) (ctx : Context) (span : Nat)
    (w : ResponseWriter) (σ : World) (h : r.method = "POST") (req : CEPRequest)
    (hd : env.decodeCEPRequest r.body = .ok req) (hv : isValidCEP req.CEP = true)
    (city : String) (σ₂ : World)
    (hc : fetchCityFromCEP env ctx req.CEP
      (σ.emit (.setAttributes span "cep" (.string req.CEP))) = (.ok city, σ₂))
    (e : String) (σ₃ : World) (ht : fetchTemperature env ctx city σ₂ = (.error e, σ₃)) :
    handleWeatherBody env r ctx span w σ =
      (httpError w "Failed to fetch temperature" 500, σ₃) := by
  simp [handleWeatherBody, h, hd, hv, hc, ht]

theorem handleWeatherBody_ok (env : Env) (r : Request) (ctx : Context) (span : Nat)
    (w : ResponseWriter) (σ : World) (h : r.method = "POST") (req : CEPRequest)
    (hd : env.decodeCEPRequest r.body = .ok req) (hv : isValidCEP req.CEP = true)
    (city : String) (σ₂ : World)
    (hc : fetchCityFromCEP env ctx req.CEP
      (σ.emit (.setAttributes span "cep" (.string req.CEP))) = (.ok city, σ₂))
    (tempC : Float) (σ₃ : World) (ht : fetchTemperature env ctx city σ₂ = (.ok tempC, σ₃)) :
    handleWeatherBody env r ctx span w σ =
      ((((w.setHeader "Content-Type" "application/json").writeHeader 200).write
          (.encoded (.weatherResponse ⟨city, tempC, tempC * 1.8 + 32, tempC + 273⟩))), σ₃) := by
  simp [handleWeatherBody, h, hd, hv, hc, ht]

end ServiceB

/-- Every path of `handleWeather` with the status it writes and the tracing
calls it makes, in order. The handler span has handle `σ.nextSpan`; the spans
of the two fetch functions have the next two handles. -/
theorem ServiceB.handleWeather_paths (env : Env) (r : Request) (σ : World) :
    ((ServiceB.handleWeather env r σ).1.status = some 405 ∧
      (ServiceB.handleWeather env r σ).2.events = σ.events ++
        [.start σ.nextSpan "handleWeather" (childSpanContext env σ r.ctx) r.ctx.span,
          .endSpan σ.nextSpan]) ∨
    ((ServiceB.handleWeather env r σ).1.status = some 400 ∧
      (ServiceB.handleWeather env r σ).2.events = σ.events ++
        [.start σ.nextSpan "handleWeather" (childSpanContext env σ r.ctx) r.ctx.span,
          .endSpan σ.nextSpan]) ∨
    ((ServiceB.handleWeather env r σ).1.status = some 422 ∧
      ∃ cep, (ServiceB.handleWeather env r σ).2.events = σ.events ++
        [.start σ.nextSpan "handleWeather" (childSpanContext env σ r.ctx) r.ctx.span,
          .setAttributes σ.nextSpan "cep" (.string cep),
          .endSpan σ.nextSpan]) ∨
    ((ServiceB.handleWeather env r σ).1.status = some 404 ∧
      ∃ cep sc₁ e, (ServiceB.handleWeather env r σ).2.events = σ.events ++
        [.start σ.nextSpan "handleWeather" (childSpanContext env σ r.ctx) r.ctx.span,
          .setAttributes σ.nextSpan "cep" (.string cep),
          .start (σ.nextSpan + 1) "fetchCityFromCEP" sc₁ (some (childSpanContext env σ r.ctx)),
          .recordError (σ.nextSpan + 1) e,
          .setStatusError (σ.nextSpan + 1) e,
          .endSpan (σ.nextSpan + 1),
          .endSpan σ.nextSpan]) ∨
    ((ServiceB.handleWeather env r σ).1.status = some 500 ∧
      ∃ cep city sc₁ sc₂ e, (ServiceB.handleWeather env r σ).2.events = σ.events ++
        [.start σ.nextSpan "handleWeather" (childSpanContext env σ r.ctx) r.ctx.span,
          .setAttributes σ.nextSpan "cep" (.string cep),
          .start (σ.nextSpan + 1) "fetchCityFromCEP" sc₁ (some (childSpanContext env σ r.ctx)),
          .setAttributes (σ.nextSpan + 1) "city" (.string city),
          .endSpan (σ.nextSpan + 1),
          .start (σ.nextSpan + 2) "fetchTemperature" sc₂ (some (childSpanContext env σ r.ctx)),
          .recordError (σ.nextSpan + 2) e,
          .setStatusError (σ.nextSpan + 2) e,
          .endSpan (σ.nextSpan + 2),
          .endSpan σ.nextSpan]) ∨
    ((ServiceB.handleWeather env r σ).1.status = some 200 ∧
      ∃ cep city tempC sc₁ sc₂, (ServiceB.handleWeather env r σ).2.events = σ.events ++
        [.start σ.nextSpan "handleWeather" (childSpanContext env σ r.ctx) r.ctx.span,
          .setAttributes σ.nextSpan "cep" (.string cep),
          .start (σ.nextSpan + 1) "fetchCityFromCEP" sc₁ (some (childSpanContext env σ r.ctx)),
          .setAttributes (σ.nextSpan + 1) "city" (.string city),
          .endSpan (σ.nextSpan + 1),
          .start (σ.nextSpan + 2) "fetchTemperature" sc₂ (some (childSpanContext env σ r.ctx)),
          .setAttributes (σ.nextSpan + 2) "tempC" (.float64 tempC),
          .endSpan (σ.nextSpan + 2),
          .endSpan σ.nextSpan]) := by
  rw [ServiceB.handleWeather_eq, tracerStart_eq]
  simp only []
  by_cases hm : r.method = "POST"
  · cases hd : env.decodeCEPRequest r.body with
    | error e =>
      right; left
      rw [ServiceB.handleWeatherBody_bad_json _ _ _ _ _ _ hm e hd]
      exact ⟨rfl, by simp⟩
    | ok req =>
      cases hv : ServiceB.isValidCEP req.CEP with
      | false =>
        right; right; left
        rw [ServiceB.handleWeatherBody_invalid_cep _ _ _ _ _ _ hm req hd hv]
        exact ⟨rfl, req.CEP, by simp⟩
      | true =>
        have hc := ServiceB.fetchCityFromCEP_trace_ex env
          ⟨some (childSpanContext env σ r.ctx), r.ctx.baggage⟩ req.CEP
          ((⟨σ.nextSpan + 1, σ.events ++
            [.start σ.nextSpan "handleWeather" (childSpanContext env σ r.ctx) r.ctx.span],
            σ.sent⟩ : World).emit (.setAttributes σ.nextSpan "cep" (.string req.CEP)))
        rcases hfc : ServiceB.fetchCityFromCEP env
          ⟨some (childSpanContext env σ r.ctx), r.ctx.baggage⟩ req.CEP
          ((⟨σ.nextSpan + 1, σ.events ++
            [.start σ.nextSpan "handleWeather" (childSpanContext env σ r.ctx) r.ctx.span],
            σ.sent⟩ : World).emit (.setAttributes σ.nextSpan "cep" (.string req.CEP)))
          with ⟨res, σ₂⟩
        rw [hfc] at hc
        obtain ⟨sc₁, hn, hcase⟩ := hc
        simp only [World.emit_nextSpan, World.emit_events] at hn hcase
        cases res with
        | error e =>
          right; right; right; left
          rw [ServiceB.handleWeatherBody_city_error _ _ _ _ _ _ hm req hd hv e σ₂ hfc]
          rcases hcase with ⟨city, h1, _⟩ | ⟨e', _, h2⟩
          · cases h1
          · refine ⟨rfl, req.CEP, sc₁, e', ?_⟩
            simp only [World.emit_events, World.emit_nextSpan, h2, List.append_assoc,
              List.cons_append, List.nil_append]
        | ok city =>
          right; right; right; right
          rcases hcase with ⟨city', _, h2⟩ | ⟨e', h1, _⟩
          swap
          · cases h1
          have ht := ServiceB.fetchTemperature_trace_ex env
            ⟨some (childSpanContext env σ r.ctx), r.ctx.baggage⟩ city σ₂
          rcases hft : ServiceB.fetchTemperature env
            ⟨some (childSpanContext env σ r.ctx), r.ctx.baggage⟩ city σ₂ with ⟨res₂, σ₃⟩
          rw [hft] at ht
          obtain ⟨sc₂, _, htcase⟩ := ht
          simp only [hn] at htcase
          cases res₂ with
          | error e =>
            left
            rw [ServiceB.handleWeatherBody_temperature_error _ _ _ _ _ _ hm req hd hv city σ₂ hfc e σ₃ hft]
            rcases htcase with ⟨t, h1, _⟩ | ⟨e', _, h3⟩
            · cases h1
            · refine ⟨rfl, req.CEP, city', sc₁, sc₂, e', ?_⟩
              simp only [World.emit_events, World.emit_nextSpan, h2, h3, List.append_assoc,
                List.cons_append, List.nil_append]
          | ok tempC =>
            right
            rw [ServiceB.handleWeatherBody_ok _ _ _ _ _ _ hm req hd hv city σ₂ hfc tempC σ₃ hft]
            rcases htcase with ⟨t, _, h3⟩ | ⟨e', h1, _⟩
            swap
            · cases h1
            refine ⟨rfl, req.CEP, city', t, sc₁, sc₂, ?_⟩
            simp only [World.emit_events, World.emit_nextSpan, h2, h3, List.append_assoc,
              List.cons_append, List.nil_append]
  · left
    rw [ServiceB.handleWeatherBody_not_post _ _ _ _ _ _ hm]
    exact ⟨rfl, by simp⟩

/-! ### The paths of `handleCEP` -/

namespace ServiceA

theorem handleCEP_eq (env : Env) (r : Request) (σ : World) :
    handleCEP env r σ =
      ((handleCEPBody env r ⟨some (childSpanContext env σ r.ctx), r.ctx.baggage⟩
          ResponseWriter.new
          ⟨σ.nextSpan + 1, σ.events ++
            [.start σ.nextSpan "handleCEP" (childSpanContext env σ r.ctx) r.ctx.span],
            σ.sent⟩).1,
        (handleCEPBody env r ⟨some (childSpanContext env σ r.ctx), r.ctx.baggage⟩
          ResponseWriter.new
          ⟨σ.nextSpan + 1, σ.events ++
            [.start σ.nextSpan "handleCEP" (childSpanContext env σ r.ctx) r.ctx.span],
            σ.sent⟩).2.emit (.endSpan σ.nextSpan)) := rfl

theorem newRequest_serviceB (ctx : Context) (req : CEPRequest) :
    newRequestWithContext ctx "POST" serviceBURL (some req) =
      .ok ⟨"POST", serviceBURL, Header.empty, some req⟩ := rfl

theorem handleCEPBody_not_post (env : Env) (r : Request) (ctx : Context)
    (w : ResponseWriter) (σ : World) (h : r.method ≠ "POST") :
    handleCEPBody env r ctx w σ = (httpError w "Method not allowed" 405, σ) := by
  simp [handleCEPBody, h]

theorem handleCEPBody_bad_json (env : Env) (r : Request) (ctx : Context)
    (w : ResponseWriter) (σ : World) (h : r.method = "POST") (e : String)
    (hd : env.decodeCEPRequest r.body = .error e) :
    handleCEPBody env r ctx w σ = (httpError w "Invalid request body" 400, σ) := by
  simp [handleCEPBody, h, hd]

theorem handleCEPBody_invalid_cep (env : Env) (r : Request) (ctx : Context)
    (w : ResponseWriter) (σ : World) (h : r.method = "POST") (req : CEPRequest)
    (hd : env.decodeCEPRequest r.body = .ok req) (hv : isValidCEP req.CEP = false) :
    handleCEPBody env r ctx w σ =
      ((((w.setHeader "Content-Type" "application/json").writeHeader 422).write
          (.encoded (.errorResponse ⟨"invalid zipcode"⟩))), σ) := by
  simp [handleCEPBody, h, hd, hv]

theorem handleCEPBody_unavailable (env : Env) (r : Request) (ctx : Context)
    (w : ResponseWriter) (σ : World) (h : r.method = "POST") (req : CEPRequest)
    (hd : env.decodeCEPRequest r.body = .ok req) (hv : isValidCEP req.CEP = true)
    (e : String) (hdo : env.clientDo (forwardedRequest ctx req) = .error e) :
    handleCEPBody env r ctx w σ =
      (httpError w "Service B unavailable" 500, σ.send (forwardedRequest ctx req)) := by
  unfold forwardedRequest at hdo
  simp [handleCEPBody, h, hd, hv, newRequest_serviceB, hdo]
  rfl

theorem handleCEPBody_mirror (env : Env) (r : Request) (ctx : Context)
    (w : ResponseWriter) (σ : World) (h : r.method = "POST") (req : CEPRequest)
    (hd : env.decodeCEPRequest r.body = .ok req) (hv : isValidCEP req.CEP = true)
    (resp : HTTPResponse) (hdo : env.clientDo (forwardedRequest ctx req) = .ok resp) :
    handleCEPBody env r ctx w σ =
      ((((w.setHeader "Content-Type" (resp.header.get "Content-Type")).writeHeader
          resp.statusCode).write (.text resp.body)), σ.send (forwardedRequest ctx req)) := by
  unfold forwardedRequest at hdo
  simp [handleCEPBody, h, hd, hv, newRequest_serviceB, hdo]
  rfl

/-- Every path of `handleCEP`: what it writes, and which request, if any, it
hands to `client.Do`. -/
theorem handleCEP_paths (env : Env) (r : Request) (σ : World) :
    (r.method ≠ "POST" ∧
      (handleCEP env r σ).1 = httpError ResponseWriter.new "Method not allowed" 405 ∧
      (handleCEP env r σ).2.sent = σ.sent) ∨
    (r.method = "POST" ∧ (∃ e, env.decodeCEPRequest r.body = .error e) ∧
      (handleCEP env r σ).1 = httpError ResponseWriter.new "Invalid request body" 400 ∧
      (handleCEP env r σ).2.sent = σ.sent) ∨
    (r.method = "POST" ∧
      (∃ req, env.decodeCEPRequest r.body = .ok req ∧ isValidCEP req.CEP = false) ∧
      (handleCEP env r σ).1 =
        ((ResponseWriter.new.setHeader "Content-Type" "application/json").writeHeader 422).write
          (.encoded (.errorResponse ⟨"invalid zipcode"⟩)) ∧
      (handleCEP env r σ).2.sent = σ.sent) ∨
    (r.method = "POST" ∧
      ∃ req, env.decodeCEPRequest r.body = .ok req ∧ isValidCEP req.CEP = true ∧
        (handleCEP env r σ).2.sent = σ.sent ++
          [forwardedRequest ⟨some (childSpanContext env σ r.ctx), r.ctx.baggage⟩ req] ∧
        ((∃ e, env.clientDo
              (forwardedRequest ⟨some (childSpanContext env σ r.ctx), r.ctx.baggage⟩ req) =
              .error e ∧
            (handleCEP env r σ).1 =
              httpError ResponseWriter.new "Service B unavailable" 500) ∨
          (∃ resp, env.clientDo
              (forwardedRequest ⟨some (childSpanContext env σ r.ctx), r.ctx.baggage⟩ req) =
              .ok resp ∧
            (handleCEP env r σ).1 =
              ((ResponseWriter.new.setHeader "Content-Type"
                (resp.header.get "Content-Type")).writeHeader resp.statusCode).write
                (.text resp.body)))) := by
  rw [handleCEP_eq]
  by_cases hm : r.method = "POST"
  · cases hd : env.decodeCEPRequest r.body with
    | error e =>
      right; left
      rw [handleCEPBody_bad_json _ _ _ _ _ hm e hd]
      exact ⟨hm, ⟨e, rfl⟩, rfl, rfl⟩
    | ok req =>
      cases hv : isValidCEP req.CEP with
      | false =>
        right; right; left
        rw [handleCEPBody_invalid_cep _ _ _ _ _ hm req hd hv]
        exact ⟨hm, ⟨req, rfl, hv⟩, rfl, rfl⟩
      | true =>
        right; right; right
        refine ⟨hm, req, rfl, hv, ?_⟩
        cases hdo : env.clientDo
            (forwardedRequest ⟨some (childSpanContext env σ r.ctx), r.ctx.baggage⟩ req) with
        | error e =>
          rw [handleCEPBody_unavailable _ _ _ _ _ hm req hd hv e hdo]
          exact ⟨rfl, Or.inl ⟨e, rfl, rfl⟩⟩
        | ok resp =>
          rw [handleCEPBody_mirror _ _ _ _ _ hm req hd hv resp hdo]
          exact ⟨rfl, Or.inr ⟨resp, rfl, rfl⟩⟩
  · left
    rw [handleCEPBody_not_post _ _ _ _ _ hm]
    exact ⟨hm, rfl, rfl⟩

/-- On every path `handleCEP` makes exactly two tracing calls: the start of its
span from `r.Context()` and the deferred end. -/
theorem handleCEP_events (env : Env) (r : Request) (σ : World) :
    (handleCEP env r σ).2.events = σ.events ++
      [.start σ.nextSpan "handleCEP" (childSpanContext env σ r.ctx) r.ctx.span,
        .endSpan σ.nextSpan] := by
  have hb : ∀ ctx w σ', (handleCEPBody env r ctx w σ').2.events = σ'.events := by
    intro ctx w σ'
    unfold handleCEPBody
    simp only []
    split
    · rfl
    · split
      · rfl
      · split
        · rfl
        · split
          · rfl
          · split <;> rfl
  rw [handleCEP_eq]
  simp [hb]

end ServiceA

/-- C1: `handleWeather` answers every request with exactly one status, chosen
in this order: a method other than POST gives 405; otherwise an undecodable
body gives 400; otherwise a cep rejected by `isValidCEP` gives 422 with the
JSON message "invalid zipcode"; otherwise an error from `fetchCityFromCEP`
gives 404 with the JSON message "can not find zipcode", and nothing happens
after that call but the end of the handler span (`fetchTemperature` is not
called); otherwise an error from `fetchTemperature` gives 500 with the text
"Failed to fetch temperature"; otherwise 200 with the weather envelope. -/
theorem handleWeather_status_precedence (env : Env) (r : Request) (σ : World) :
    (r.method ≠ "POST" →
      (ServiceB.handleWeather env r σ).1.status = some 405) ∧
    (r.method = "POST" → ∀ e, env.decodeCEPRequest r.body = .error e →
      (ServiceB.handleWeather env r σ).1.status = some 400) ∧
    (r.method = "POST" → ∀ req, env.decodeCEPRequest r.body = .ok req →
      (ServiceB.isValidCEP req.CEP = false →
        (ServiceB.handleWeather env r σ).1.status = some 422 ∧
        (ServiceB.handleWeather env r σ).1.header.get "Content-Type" = "application/json" ∧
        (ServiceB.handleWeather env r σ).1.body =
          [.encoded (.errorResponse ⟨"invalid zipcode"⟩)]) ∧
      (ServiceB.isValidCEP req.CEP = true →
        (∀ e σ₂,
          ServiceB.fetchCityFromCEP env (tracerStart env σ r.ctx "handleWeather").2.1 req.CEP
            ((tracerStart env σ r.ctx "handleWeather").1.emit
              (.setAttributes (tracerStart env σ r.ctx "handleWeather").2.2 "cep"
                (.string req.CEP))) = (.error e, σ₂) →
          (ServiceB.handleWeather env r σ).1.status = some 404 ∧
          (ServiceB.handleWeather env r σ).1.header.get "Content-Type" = "application/json" ∧
          (ServiceB.handleWeather env r σ).1.body =
            [.encoded (.errorResponse ⟨"can not find zipcode"⟩)] ∧
          (ServiceB.handleWeather env r σ).2 =
            σ₂.emit (.endSpan (tracerStart env σ r.ctx "handleWeather").2.2)) ∧
        (∀ city σ₂,
          ServiceB.fetchCityFromCEP env (tracerStart env σ r.ctx "handleWeather").2.1 req.CEP
            ((tracerStart env σ r.ctx "handleWeather").1.emit
              (.setAttributes (tracerStart env σ r.ctx "handleWeather").2.2 "cep"
                (.string req.CEP))) = (.ok city, σ₂) →
          (∀ e σ₃,
            ServiceB.fetchTemperature env (tracerStart env σ r.ctx "handleWeather").2.1 city σ₂ =
              (.error e, σ₃) →
            (ServiceB.handleWeather env r σ).1.status = some 500 ∧
            (ServiceB.handleWeather env r σ).1.header.get "Content-Type" =
              "text/plain; charset=utf-8" ∧
            (ServiceB.handleWeather env r σ).1.body =
              [.text "Failed to fetch temperature\n"]) ∧
          (∀ tempC σ₃,
            ServiceB.fetchTemperature env (tracerStart env σ r.ctx "handleWeather").2.1 city σ₂ =
              (.ok tempC, σ₃) →
            (ServiceB.handleWeather env r σ).1.status = some 200 ∧
            (ServiceB.handleWeather env r σ).1.header.get "Content-Type" = "application/json" ∧
            (ServiceB.handleWeather env r σ).1.body =
              [.encoded (.weatherResponse ⟨city, tempC, tempC * 1.8 + 32, tempC + 273⟩)])))) := by
  refine ⟨?_, ?_, ?_⟩
  · intro h
    rw [ServiceB.handleWeather_eq, ServiceB.handleWeatherBody_not_post _ _ _ _ _ _ h]
    rfl
  · intro h e hd
    rw [ServiceB.handleWeather_eq, ServiceB.handleWeatherBody_bad_json _ _ _ _ _ _ h e hd]
    rfl
  · intro h req hd
    refine ⟨?_, ?_⟩
    · intro hv
      rw [ServiceB.handleWeather_eq, ServiceB.handleWeatherBody_invalid_cep _ _ _ _ _ _ h req hd hv]
      exact ⟨rfl, rfl, rfl⟩
    · intro hv
      refine ⟨?_, ?_⟩
      · intro e σ₂ hc
        rw [ServiceB.handleWeather_eq, ServiceB.handleWeatherBody_city_error _ _ _ _ _ _ h req hd hv e σ₂ hc]
        exact ⟨rfl, rfl, rfl, rfl⟩
      · intro city σ₂ hc
        refine ⟨?_, ?_⟩
        · intro e σ₃ ht
          rw [ServiceB.handleWeather_eq,
            ServiceB.handleWeatherBody_temperature_error _ _ _ _ _ _ h req hd hv city σ₂ hc e σ₃ ht]
          exact ⟨rfl, rfl, rfl⟩
        · intro tempC σ₃ ht
          rw [ServiceB.handleWeather_eq,
            ServiceB.handleWeatherBody_ok _ _ _ _ _ _ h req hd hv city σ₂ hc tempC σ₃ ht]
          exact ⟨rfl, rfl, rfl⟩

/-- C3: `handleCEP` hands a request to `client.Do` exactly when the method is
POST, the body decodes and the decoded cep passes `isValidCEP`, and then it is
one POST to the Resolver URL carrying that cep; otherwise it answers without
any outbound call: 405 for another method, else 400 for an undecodable body,
else 422 with content type application/json and the JSON message "invalid
zipcode". Every cep that is forwarded is eight ASCII decimal digits. -/
theorem handleCEP_forwards_iff_valid (env : Env) (r : Request) (σ : World) :
    ((∃ out, (ServiceA.handleCEP env r σ).2.sent = σ.sent ++ [out]) ↔
      (r.method = "POST" ∧
        ∃ req, env.decodeCEPRequest r.body = .ok req ∧ ServiceA.isValidCEP req.CEP = true)) ∧
    ((ServiceA.handleCEP env r σ).2.sent = σ.sent ∨
      ∃ out, (ServiceA.handleCEP env r σ).2.sent = σ.sent ++ [out]) ∧
    (r.method ≠ "POST" →
      (ServiceA.handleCEP env r σ).2.sent = σ.sent ∧
      (ServiceA.handleCEP env r σ).1.status = some 405) ∧
    (r.method = "POST" → ∀ e, env.decodeCEPRequest r.body = .error e →
      (ServiceA.handleCEP env r σ).2.sent = σ.sent ∧
      (ServiceA.handleCEP env r σ).1.status = some 400) ∧
    (r.method = "POST" → ∀ req, env.decodeCEPRequest r.body = .ok req →
      ServiceA.isValidCEP req.CEP = false →
      (ServiceA.handleCEP env r σ).2.sent = σ.sent ∧
      (ServiceA.handleCEP env r σ).1.status = some 422 ∧
      (ServiceA.handleCEP env r σ).1.header.get "Content-Type" = "application/json" ∧
      (ServiceA.handleCEP env r σ).1.body = [.encoded (.errorResponse ⟨"invalid zipcode"⟩)]) ∧
    (∀ out, (ServiceA.handleCEP env r σ).2.sent = σ.sent ++ [out] →
      out.method = "POST" ∧ out.url = ServiceA.serviceBURL ∧
      ∃ cep, out.body = some ⟨cep⟩ ∧ cep.length = 8 ∧ ∀ c ∈ cep.data, '0' ≤ c ∧ c ≤ '9') := by
  have hgrow : ∀ (l : List OutboundRequest) (q : OutboundRequest), l ≠ l ++ [q] := by
    intro l q h
    have := congrArg List.length h
    simp at this
  have hdigits : ∀ cep : String, ServiceA.isValidCEP cep = true →
      cep.length = 8 ∧ ∀ c ∈ cep.data, '0' ≤ c ∧ c ≤ '9' :=
    fun cep h => ((isValidCEP_digits cep).1 h)
  rcases ServiceA.handleCEP_paths env r σ with
    ⟨hm, hw, hs⟩ | ⟨hm, ⟨e, hd⟩, hw, hs⟩ | ⟨hm, ⟨req, hd, hv⟩, hw, hs⟩ |
    ⟨hm, req, hd, hv, hs, _⟩
  · rw [hw, hs]
    refine ⟨⟨fun ⟨q, hq⟩ => absurd hq (hgrow _ _), fun h => absurd h.1 hm⟩, Or.inl rfl,
      fun _ => ⟨rfl, rfl⟩, fun h => absurd h hm, fun h => absurd h hm,
      fun q hq => absurd hq (hgrow _ _)⟩
  · rw [hw, hs]
    refine ⟨⟨fun ⟨q, hq⟩ => absurd hq (hgrow _ _), ?_⟩, Or.inl rfl,
      fun h => absurd hm h, fun _ _ _ => ⟨rfl, rfl⟩, ?_, fun q hq => absurd hq (hgrow _ _)⟩
    · rintro ⟨_, req, hd', _⟩
      rw [hd] at hd'
      cases hd'
    · intro _ req hd'
      rw [hd] at hd'
      cases hd'
  · rw [hw, hs]
    refine ⟨⟨fun ⟨q, hq⟩ => absurd hq (hgrow _ _), ?_⟩, Or.inl rfl,
      fun h => absurd hm h, ?_, fun _ _ _ _ => ⟨rfl, rfl, rfl, rfl⟩,
      fun q hq => absurd hq (hgrow _ _)⟩
    · rintro ⟨_, req', hd', hv'⟩
      rw [hd] at hd'
      cases hd'
      rw [hv] at hv'
      cases hv'
    · intro _ e hd'
      rw [hd] at hd'
      cases hd'
  · rw [hs]
    refine ⟨⟨fun _ => ⟨hm, req, hd, hv⟩, fun _ => ⟨_, rfl⟩⟩, Or.inr ⟨_, rfl⟩,
      fun h => absurd hm h, ?_, ?_, ?_⟩
    · intro _ e hd'
      rw [hd] at hd'
      cases hd'
    · intro _ req' hd' hv'
      rw [hd] at hd'
      cases hd'
      rw [hv] at hv'
      cases hv'
    · intro q hq
      have hq' := List.append_cancel_left hq
      cases hq'
      exact ⟨rfl, rfl, req.CEP, rfl, hdigits req.CEP hv⟩

/-- C3, on scenario S1: the valid cep is forwarded, once, to the Resolver. -/
theorem handleCEP_forwards_iff_valid_witness :
    ∃ out, (ServiceA.handleCEP scenarioS1 requestS1 (World.fresh 0)).2.sent =
      (World.fresh 0).sent ++ [out] :=
  (handleCEP_forwards_iff_valid scenarioS1 requestS1 (World.fresh 0)).1.2
    ⟨rfl, ⟨"01310100"⟩, rfl, by decide⟩

/-- What the three mirroring calls of `handleCEP` leave in a fresh writer when
the status code is one `WriteHeader` takes as the final status. -/
theorem mirror_writer (value body : String) (code : Nat)
    (hfinal : code = 101 ∨ 200 ≤ code) (hmax : code ≤ 999) :
    (((ResponseWriter.new.setHeader "Content-Type" value).writeHeader code).write
      (.text body)).status = some code ∧
    (((ResponseWriter.new.setHeader "Content-Type" value).writeHeader code).write
      (.text body)).header.get "Content-Type" = value ∧
    (((ResponseWriter.new.setHeader "Content-Type" value).writeHeader code).write
      (.text body)).body = [.text body] := by
  have h1 : ¬ (code < 100 ∨ 999 < code) := by omega
  have h2 : ¬ (code ≤ 199 ∧ code ≠ 101) := by omega
  have hw : (ResponseWriter.new.setHeader "Content-Type" value).writeHeader code =
      ⟨Header.empty.set "Content-Type" value, some code, [], false⟩ := by
    simp [ResponseWriter.writeHeader, ResponseWriter.setHeader, ResponseWriter.new, h1, h2]
  rw [hw]
  refine ⟨rfl, ?_, rfl⟩
  exact Header.get_set _ _ _

/-- C4, counterexample: in scenario S1 with a Resolver that answers status 99,
`handleCEP` forwards the request and `client.Do` returns the response, but
`w.WriteHeader(99)` panics: no status and no body are written, so the
Resolver's status code is not mirrored. -/
theorem handleCEP_panics_on_status_99 :
    (ServiceA.handleCEP scenarioStatus99 requestS1 (World.fresh 0)).2.sent =
      [ServiceA.forwardedRequest
        ⟨some (childSpanContext scenarioStatus99 (World.fresh 0) requestS1.ctx), ""⟩
        ⟨"01310100"⟩] ∧
    scenarioStatus99.clientDo
        (ServiceA.forwardedRequest
          ⟨some (childSpanContext scenarioStatus99 (World.fresh 0) requestS1.ctx), ""⟩
          ⟨"01310100"⟩) =
      .ok ⟨99, ⟨[("Content-Type", "application/json")]⟩, "odd"⟩ ∧
    (ServiceA.handleCEP scenarioStatus99 requestS1 (World.fresh 0)).1.status = none ∧
    (ServiceA.handleCEP scenarioStatus99 requestS1 (World.fresh 0)).1.body = [] ∧
    (ServiceA.handleCEP scenarioStatus99 requestS1 (World.fresh 0)).1.panicked = true :=
  ⟨by decide, rfl, by decide, rfl, by decide⟩

/-- C4, amended: whenever `handleCEP` has handed a request to `client.Do`,
whatever response comes back with a status code that net/http writes as the
final status (101, or 200 to 999), with any headers and any body, the status
the handler writes is the response's status, the `Content-Type` it sets is the
response's `Content-Type` value, and the body it writes is the response body
and nothing else; if `client.Do` fails instead, the handler writes 500 with
the plain text "Service B unavailable". -/
theorem handleCEP_mirrors_resolver (env : Env) (r : Request) (σ : World) (out : OutboundRequest)
    (hsent : (ServiceA.handleCEP env r σ).2.sent = σ.sent ++ [out]) :
    (∀ resp, env.clientDo out = .ok resp →
      (resp.statusCode = 101 ∨ 200 ≤ resp.statusCode) → resp.statusCode ≤ 999 →
      (ServiceA.handleCEP env r σ).1.status = some resp.statusCode ∧
      (ServiceA.handleCEP env r σ).1.header.get "Content-Type" =
        resp.header.get "Content-Type" ∧
      (ServiceA.handleCEP env r σ).1.body = [.text resp.body]) ∧
    (∀ e, env.clientDo out = .error e →
      (ServiceA.handleCEP env r σ).1.status = some 500 ∧
      (ServiceA.handleCEP env r σ).1.header.get "Content-Type" = "text/plain; charset=utf-8" ∧
      (ServiceA.handleCEP env r σ).1.body = [.text "Service B unavailable\n"]) := by
  have hgrow : ∀ (l : List OutboundRequest) (q : OutboundRequest), l ≠ l ++ [q] := by
    intro l q h
    have := congrArg List.length h
    simp at this
  rcases ServiceA.handleCEP_paths env r σ with
    ⟨_, _, hs⟩ | ⟨_, _, _, hs⟩ | ⟨_, _, _, hs⟩ | ⟨_, req, _, _, hs, hdo⟩
  · rw [hs] at hsent
    exact absurd hsent (hgrow _ _)
  · rw [hs] at hsent
    exact absurd hsent (hgrow _ _)
  · rw [hs] at hsent
    exact absurd hsent (hgrow _ _)
  · rw [hs] at hsent
    have hq := List.append_cancel_left hsent
    cases hq
    rcases hdo with ⟨e, he, hw⟩ | ⟨resp, hr, hw⟩
    · rw [hw]
      refine ⟨?_, fun _ _ => ⟨rfl, rfl, rfl⟩⟩
      intro resp hr
      rw [he] at hr
      cases hr
    · rw [hw]
      refine ⟨?_, ?_⟩
      · intro resp' hr' hfinal hmax
        rw [hr] at hr'
        cases hr'
        exact mirror_writer _ _ _ hfinal hmax
      · intro e he
        rw [hr] at he
        cases he

/-- C4 amended, on scenario S1: the Resolver's 200 and its JSON content type
are mirrored. -/
theorem handleCEP_mirrors_resolver_witness :
    (ServiceA.handleCEP scenarioS1 requestS1 (World.fresh 0)).1.status = some 200 ∧
    (ServiceA.handleCEP scenarioS1 requestS1 (World.fresh 0)).1.header.get "Content-Type" =
      "application/json" :=
  have h := (handleCEP_mirrors_resolver scenarioS1 requestS1 (World.fresh 0)
    (ServiceA.forwardedRequest
      ⟨some (childSpanContext scenarioS1 (World.fresh 0) requestS1.ctx), ""⟩ ⟨"01310100"⟩)
    rfl).1 _ rfl (Or.inr (by decide)) (by decide)
  ⟨h.1, h.2.1⟩

/-- C5, counterexample: in scenario S1 the inbound request carries a well-formed
`traceparent` of trace `4bf9...4736`; `handleCEP` forwards the request, its
span has no parent, and the `traceparent` it injects into the outbound request
carries the freshly generated trace `0af7...319c`, not the inbound one. -/
theorem handleCEP_drops_inbound_trace :
    requestS1.header.get "Traceparent" =
      traceparent ⟨"4bf92f3577b34da6a3ce929d0e0e4736", "00f067aa0ba902b7", true, ""⟩ ∧
    (ServiceA.handleCEP scenarioS1 requestS1 (World.fresh 0)).1.status = some 200 ∧
    (ServiceA.handleCEP scenarioS1 requestS1 (World.fresh 0)).2.sent.map
        (fun q => q.header.get "Traceparent") =
      [traceparent ⟨"0af7651916cd43dd8448eb211c80319c", "b7ad6b7169203331", true, ""⟩] ∧
    "0af7651916cd43dd8448eb211c80319c" ≠ "4bf92f3577b34da6a3ce929d0e0e4736" ∧
    (ServiceA.handleCEP scenarioS1 requestS1 (World.fresh 0)).2.events =
      [.start 0 "handleCEP"
          ⟨"0af7651916cd43dd8448eb211c80319c", "b7ad6b7169203331", true, ""⟩ none,
        .endSpan 0] :=
  ⟨by decide, by decide, by decide, by decide, rfl⟩

/-- C5, amended: for every request that `handleCEP` forwards, the `handleCEP`
span is started from the request's Go context `r.Context()` (its parent is the
span of that context, if any; the inbound headers are never read, so the
handler behaves the same whatever they are), and the `traceparent` header
injected into the outbound request is that of the `handleCEP` span: it carries
the trace ID of the span in `r.Context()` if there is one and a newly generated
trace ID otherwise. -/
theorem handleCEP_injects_own_span (env : Env) (r : Request) (σ : World) (out : OutboundRequest)
    (hsent : (ServiceA.handleCEP env r σ).2.sent = σ.sent ++ [out]) :
    (ServiceA.handleCEP env r σ).2.events = σ.events ++
      [.start σ.nextSpan "handleCEP" (childSpanContext env σ r.ctx) r.ctx.span,
        .endSpan σ.nextSpan] ∧
    out.header.get "Traceparent" = traceparent (childSpanContext env σ r.ctx) ∧
    (childSpanContext env σ r.ctx).traceID =
      (match r.ctx.span with
        | some parent => parent.traceID
        | none => env.newTraceID σ.nextSpan) ∧
    (∀ h : Header, ServiceA.handleCEP env { r with header := h } σ =
      ServiceA.handleCEP env r σ) := by
  have hgrow : ∀ (l : List OutboundRequest) (q : OutboundRequest), l ≠ l ++ [q] := by
    intro l q h
    have := congrArg List.length h
    simp at this
  refine ⟨ServiceA.handleCEP_events env r σ, ?_, ?_, fun _ => rfl⟩
  · rcases ServiceA.handleCEP_paths env r σ with
      ⟨_, _, hs⟩ | ⟨_, _, _, hs⟩ | ⟨_, _, _, hs⟩ | ⟨_, req, _, _, hs, _⟩
    · rw [hs] at hsent
      exact absurd hsent (hgrow _ _)
    · rw [hs] at hsent
      exact absurd hsent (hgrow _ _)
    · rw [hs] at hsent
      exact absurd hsent (hgrow _ _)
    · rw [hs] at hsent
      have hq := List.append_cancel_left hsent
      cases hq
      exact inject_traceparent _ _ _
  · unfold childSpanContext
    cases r.ctx.span <;> rfl

/-- C5 amended, on scenario S1: the injected `traceparent` is the one of the
new root span. -/
theorem handleCEP_injects_own_span_witness :
    (ServiceA.forwardedRequest
      ⟨some (childSpanContext scenarioS1 (World.fresh 0) requestS1.ctx), ""⟩
      ⟨"01310100"⟩).header.get "Traceparent" =
      traceparent (childSpanContext scenarioS1 (World.fresh 0) requestS1.ctx) :=
  (handleCEP_injects_own_span scenarioS1 requestS1 (World.fresh 0)
    (ServiceA.forwardedRequest
      ⟨some (childSpanContext scenarioS1 (World.fresh 0) requestS1.ctx), ""⟩ ⟨"01310100"⟩)
    rfl).2.1

/-! ### The requests the Resolver sends -/

theorem newRequest_header_empty (ctx : Context) (method url : String) (body : Option CEPRequest)
    (q : OutboundRequest) (h : newRequestWithContext ctx method url body = .ok q) :
    q.header = Header.empty := by
  unfold newRequestWithContext at h
  simp only [] at h
  by_cases h1 : (!validMethod (if (method == "") = true then "GET" else method)) = true
  · rw [if_pos h1] at h
    cases h
  · rw [if_neg h1] at h
    by_cases h2 : (!urlParses url) = true
    · rw [if_pos h2] at h
      cases h
    · rw [if_neg h2] at h
      cases h
      rfl

namespace ServiceB

theorem fetchCityFromCEPBody_sent (env : Env) (ctx : Context) (span : Nat) (cep : String)
    (σ : World) (q : OutboundRequest)
    (hq : q ∈ (fetchCityFromCEPBody env ctx span cep σ).2.sent) :
    q ∈ σ.sent ∨ q.header = Header.empty := by
  unfold fetchCityFromCEPBody at hq
  simp only [] at hq
  split at hq
  · exact Or.inl hq
  · rename_i req hreq
    have hempty := newRequest_header_empty _ _ _ _ _ hreq
    have hin : q ∈ σ.sent ++ [req] := by
      split at hq
      · exact hq
      · split at hq
        · exact hq
        · split at hq
          · exact hq
          · split at hq <;> exact hq
    rcases List.mem_append.mp hin with h | h
    · exact Or.inl h
    · rw [List.mem_singleton] at h
      exact Or.inr (h ▸ hempty)

theorem fetchTemperatureBody_sent (env : Env) (ctx : Context) (span : Nat) (city : String)
    (σ : World) (q : OutboundRequest)
    (hq : q ∈ (fetchTemperatureBody env ctx span city σ).2.sent) :
    q ∈ σ.sent ∨ q.header = Header.empty := by
  unfold fetchTemperatureBody at hq
  simp only [] at hq
  split at hq
  · exact Or.inl hq
  · rename_i req hreq
    have hempty := newRequest_header_empty _ _ _ _ _ hreq
    have hin : q ∈ σ.sent ++ [req] := by
      split at hq
      · exact hq
      · split at hq
        · exact hq
        · split at hq <;> exact hq
    rcases List.mem_append.mp hin with h | h
    · exact Or.inl h
    · rw [List.mem_singleton] at h
      exact Or.inr (h ▸ hempty)

theorem fetchCityFromCEP_sent (env : Env) (ctx : Context) (cep : String)
    (σ : World) (q : OutboundRequest) (hq : q ∈ (fetchCityFromCEP env ctx cep σ).2.sent) :
    q ∈ σ.sent ∨ q.header = Header.empty := by
  have hf : (fetchCityFromCEP env ctx cep σ).2.sent =
      (fetchCityFromCEPBody env ⟨some (childSpanContext env σ ctx), ctx.baggage⟩ σ.nextSpan cep
        ⟨σ.nextSpan + 1, σ.events ++
          [.start σ.nextSpan "fetchCityFromCEP" (childSpanContext env σ ctx) ctx.span],
          σ.sent⟩).2.sent := rfl
  rw [hf] at hq
  have h := fetchCityFromCEPBody_sent env _ _ cep _ q hq
  exact h

theorem fetchTemperature_sent (env : Env) (ctx : Context) (city : String)
    (σ : World) (q : OutboundRequest) (hq : q ∈ (fetchTemperature env ctx city σ).2.sent) :
    q ∈ σ.sent ∨ q.header = Header.empty := by
  have hf : (fetchTemperature env ctx city σ).2.sent =
      (fetchTemperatureBody env ⟨some (childSpanContext env σ ctx), ctx.baggage⟩ σ.nextSpan city
        ⟨σ.nextSpan + 1, σ.events ++
          [.start σ.nextSpan "fetchTemperature" (childSpanContext env σ ctx) ctx.span],
          σ.sent⟩).2.sent := rfl
  rw [hf] at hq
  have h := fetchTemperatureBody_sent env _ _ city _ q hq
  exact h

theorem handleWeatherBody_sent (env : Env) (r : Request) (ctx : Context) (span : Nat)
    (w : ResponseWriter) (σ : World) (q : OutboundRequest)
    (hq : q ∈ (handleWeatherBody env r ctx span w σ).2.sent) :
    q ∈ σ.sent ∨ q.header = Header.empty := by
  by_cases hm : r.method = "POST"
  · cases hd : env.decodeCEPRequest r.body with
    | error e =>
      rw [handleWeatherBody_bad_json _ _ _ _ _ _ hm e hd] at hq
      exact Or.inl hq
    | ok req =>
      cases hv : isValidCEP req.CEP with
      | false =>
        rw [handleWeatherBody_invalid_cep _ _ _ _ _ _ hm req hd hv] at hq
        exact Or.inl hq
      | true =>
        rcases hfc : fetchCityFromCEP env ctx req.CEP
          (σ.emit (.setAttributes span "cep" (.string req.CEP))) with ⟨res, σ₂⟩
        have h2 : ∀ q, q ∈ σ₂.sent → q ∈ σ.sent ∨ q.header = Header.empty := by
          intro q hq2
          have := fetchCityFromCEP_sent env ctx req.CEP
            (σ.emit (.setAttributes span "cep" (.string req.CEP))) q (by rw [hfc]; exact hq2)
          simpa using this
        cases res with
        | error e =>
          rw [handleWeatherBody_city_error _ _ _ _ _ _ hm req hd hv e σ₂ hfc] at hq
          exact h2 q hq
        | ok city =>
          rcases hft : fetchTemperature env ctx city σ₂ with ⟨res₂, σ₃⟩
          have h3 : q ∈ σ₃.sent → q ∈ σ.sent ∨ q.header = Header.empty := by
            intro hq3
            rcases fetchTemperature_sent env ctx city σ₂ q (by rw [hft]; exact hq3) with h | h
            · exact h2 q h
            · exact Or.inr h
          cases res₂ with
          | error e =>
            rw [handleWeatherBody_temperature_error _ _ _ _ _ _ hm req hd hv city σ₂ hfc e σ₃ hft] at hq
            exact h3 hq
          | ok tempC =>
            rw [handleWeatherBody_ok _ _ _ _ _ _ hm req hd hv city σ₂ hfc tempC σ₃ hft] at hq
            exact h3 hq
  · rw [handleWeatherBody_not_post _ _ _ _ _ _ hm] at hq
    exact Or.inl hq

end ServiceB

/-- C6: the requests `fetchCityFromCEP` and `fetchTemperature` hand to
`client.Do` carry no header at all: every request sent while `handleWeather`
runs has an empty header map, hence no `traceparent`, `tracestate` or
`baggage`. On scenario S1, whose inbound request carries a `traceparent`, the
handler answers 200 after sending exactly the directory request and the
weather request, both with an empty header map. -/
theorem handleWeather_outbound_requests_carry_no_trace_headers :
    (∀ (env : Env) (r : Request) (σ : World) (q : OutboundRequest),
      q ∈ (ServiceB.handleWeather env r σ).2.sent →
      q ∈ σ.sent ∨ q.header = Header.empty) ∧
    requestS1.header.has "Traceparent" = true ∧
    (ServiceB.handleWeather scenarioS1 requestS1 (World.fresh 0)).1.status = some 200 ∧
    (ServiceB.handleWeather scenarioS1 requestS1 (World.fresh 0)).2.sent =
      [⟨"GET", "https://viacep.com.br/ws/01310100/json/", Header.empty, none⟩,
        ⟨"GET", "http://api.weatherapi.com/v1/current.json?key=k&q=São Paulo",
          Header.empty, none⟩] ∧
    (ServiceB.handleWeather scenarioS1 requestS1 (World.fresh 0)).2.sent.map
      (fun q => q.header.has "Traceparent") = [false, false] := by
  refine ⟨?_, by decide, by decide, by decide, by decide⟩
  intro env r σ q hq
  have hf : (ServiceB.handleWeather env r σ).2.sent =
      (ServiceB.handleWeatherBody env r ⟨some (childSpanContext env σ r.ctx), r.ctx.baggage⟩
        σ.nextSpan ResponseWriter.new
        ⟨σ.nextSpan + 1, σ.events ++
          [.start σ.nextSpan "handleWeather" (childSpanContext env σ r.ctx) r.ctx.span],
          σ.sent⟩).2.sent := rfl
  rw [hf] at hq
  have h := ServiceB.handleWeatherBody_sent env r _ _ _ _ q hq
  exact h

/-! ### What the two fetch functions return -/

theorem newRequest_get (ctx : Context) (url : String) :
    newRequestWithContext ctx "GET" url none =
      if urlParses url = true then .ok ⟨"GET", url, Header.empty, none⟩
      else .error ("parse " ++ url) := by
  have hv : validMethod "GET" = true := by decide
  unfold newRequestWithContext
  cases hu : urlParses url <;> simp [hv]

namespace ServiceB

theorem fetchCityFromCEP_result (env : Env) (ctx : Context) (cep : String) (σ : World) :
    (fetchCityFromCEP env ctx cep σ).1 =
      (if urlParses (directoryURL cep) = true then
        match env.clientDo ⟨"GET", directoryURL cep, Header.empty, none⟩ with
        | .error err => .error err
        | .ok resp =>
          if resp.statusCode = 200 then
            match env.decodeViaCEPResponse resp.body with
            | .error err => .error err
            | .ok v => if v.Erro = true then .error "CEP not found" else .ok v.Localidade
          else .error ("viaCEP returned status " ++ toString resp.statusCode)
      else .error ("parse " ++ directoryURL cep)) := by
  have hf : (fetchCityFromCEP env ctx cep σ).1 =
      (fetchCityFromCEPBody env ⟨some (childSpanContext env σ ctx), ctx.baggage⟩ σ.nextSpan cep
        ⟨σ.nextSpan + 1, σ.events ++
          [.start σ.nextSpan "fetchCityFromCEP" (childSpanContext env σ ctx) ctx.span],
          σ.sent⟩).1 := rfl
  rw [hf]
  unfold fetchCityFromCEPBody
  simp only [newRequest_get]
  by_cases hu : urlParses (directoryURL cep) = true
  · simp only [hu, if_true]
    cases env.clientDo ⟨"GET", directoryURL cep, Header.empty, none⟩ with
    | error err => rfl
    | ok resp =>
      by_cases hs : resp.statusCode = 200
      · simp only [hs, bne_self_eq_false, Bool.false_eq_true, if_false, if_true]
        cases env.decodeViaCEPResponse resp.body with
        | error err => rfl
        | ok v => cases hv : v.Erro <;> simp [hv]
      · simp [hs]
  · simp [hu]

theorem fetchTemperature_result (env : Env) (ctx : Context) (city : String) (σ : World) :
    (fetchTemperature env ctx city σ).1 =
      (if urlParses (weatherURL env city) = true then
        match env.clientDo ⟨"GET", weatherURL env city, Header.empty, none⟩ with
        | .error err => .error err
        | .ok resp =>
          if resp.statusCode = 200 then
            match env.decodeWeatherAPIResponse resp.body with
            | .error err => .error err
            | .ok v => .ok v.TempC
          else .error ("weatherAPI returned status " ++ toString resp.statusCode)
      else .error ("parse " ++ weatherURL env city)) := by
  have hf : (fetchTemperature env ctx city σ).1 =
      (fetchTemperatureBody env ⟨some (childSpanContext env σ ctx), ctx.baggage⟩ σ.nextSpan city
        ⟨σ.nextSpan + 1, σ.events ++
          [.start σ.nextSpan "fetchTemperature" (childSpanContext env σ ctx) ctx.span],
          σ.sent⟩).1 := rfl
  rw [hf]
  unfold fetchTemperatureBody
  simp only [newRequest_get]
  by_cases hu : urlParses (weatherURL env city) = true
  · simp only [hu, if_true]
    cases env.clientDo ⟨"GET", weatherURL env city, Header.empty, none⟩ with
    | error err => rfl
    | ok resp =>
      by_cases hs : resp.statusCode = 200
      · simp only [hs, bne_self_eq_false, Bool.false_eq_true, if_false, if_true]
        cases env.decodeWeatherAPIResponse resp.body with
        | error err => rfl
        | ok v => rfl
      · simp [hs]
  · simp [hu]

/-- The response of `handleWeather` to a POST with a valid cep, as a function
of what the two fetch functions return. -/
theorem handleWeather_valid (env : Env) (r : Request) (σ : World) (req : CEPRequest)
    (hm : r.method = "POST") (hd : env.decodeCEPRequest r.body = .ok req)
    (hv : isValidCEP req.CEP = true) :
    (handleWeather env r σ).1 =
      match (fetchCityFromCEP env ⟨some (childSpanContext env σ r.ctx), r.ctx.baggage⟩ req.CEP
        ((⟨σ.nextSpan + 1, σ.events ++
          [.start σ.nextSpan "handleWeather" (childSpanContext env σ r.ctx) r.ctx.span],
          σ.sent⟩ : World).emit (.setAttributes σ.nextSpan "cep" (.string req.CEP)))) with
      | (.error _, _) =>
        ((ResponseWriter.new.setHeader "Content-Type" "application/json").writeHeader 404).write
          (.encoded (.errorResponse ⟨"can not find zipcode"⟩))
      | (.ok city, σ₂) =>
        match (fetchTemperature env ⟨some (childSpanContext env σ r.ctx), r.ctx.baggage⟩
          city σ₂).1 with
        | .error _ => httpError ResponseWriter.new "Failed to fetch temperature" 500
        | .ok tempC =>
          ((ResponseWriter.new.setHeader "Content-Type" "application/json").writeHeader 200).write
            (.encoded (.weatherResponse ⟨city, tempC, tempC * 1.8 + 32, tempC + 273⟩)) := by
  rw [handleWeather_eq, tracerStart_eq]
  simp only []
  rcases hfc : fetchCityFromCEP env ⟨some (childSpanContext env σ r.ctx), r.ctx.baggage⟩ req.CEP
      ((⟨σ.nextSpan + 1, σ.events ++
        [.start σ.nextSpan "handleWeather" (childSpanContext env σ r.ctx) r.ctx.span],
        σ.sent⟩ : World).emit (.setAttributes σ.nextSpan "cep" (.string req.CEP)))
    with ⟨res, σ₂⟩
  cases res with
  | error e =>
    rw [handleWeatherBody_city_error _ _ _ _ _ _ hm req hd hv e σ₂ hfc, hfc]
  | ok city =>
    rcases hft : fetchTemperature env ⟨some (childSpanContext env σ r.ctx), r.ctx.baggage⟩
      city σ₂ with ⟨res₂, σ₃⟩
    cases res₂ with
    | error e =>
      rw [handleWeatherBody_temperature_error _ _ _ _ _ _ hm req hd hv city σ₂ hfc e σ₃ hft, hfc]
      simp only [hft]
    | ok tempC =>
      rw [handleWeatherBody_ok _ _ _ _ _ _ hm req hd hv city σ₂ hfc tempC σ₃ hft, hfc]
      simp only [hft]

end ServiceB

/-- The response of `handleWeather` to a POST with a valid cep in terms of the
answers of the directory and of the weather provider. -/
theorem ServiceB.handleWeather_valid_answers (env : Env) (r : Request) (σ : World)
    (req : CEPRequest) (hm : r.method = "POST") (hd : env.decodeCEPRequest r.body = .ok req)
    (hv : ServiceB.isValidCEP req.CEP = true) :
    (ServiceB.handleWeather env r σ).1 =
      match (if urlParses (ServiceB.directoryURL req.CEP) = true then
        match env.clientDo ⟨"GET", ServiceB.directoryURL req.CEP, Header.empty, none⟩ with
        | .error err => .error err
        | .ok resp =>
          if resp.statusCode = 200 then
            match env.decodeViaCEPResponse resp.body with
            | .error err => .error err
            | .ok v => if v.Erro = true then .error "CEP not found" else .ok v.Localidade
          else .error ("viaCEP returned status " ++ toString resp.statusCode)
      else Except.error ("parse " ++ ServiceB.directoryURL req.CEP) : Except String String) with
      | .error _ =>
        ((ResponseWriter.new.setHeader "Content-Type" "application/json").writeHeader 404).write
          (.encoded (.errorResponse ⟨"can not find zipcode"⟩))
      | .ok city =>
        match (if urlParses (ServiceB.weatherURL env city) = true then
          match env.clientDo ⟨"GET", ServiceB.weatherURL env city, Header.empty, none⟩ with
          | .error err => .error err
          | .ok resp =>
            if resp.statusCode = 200 then
              match env.decodeWeatherAPIResponse resp.body with
              | .error err => .error err
              | .ok v => .ok v.TempC
            else .error ("weatherAPI returned status " ++ toString resp.statusCode)
        else Except.error ("parse " ++ ServiceB.weatherURL env city) : Except String Float) with
        | .error _ => httpError ResponseWriter.new "Failed to fetch temperature" 500
        | .ok tempC =>
          ((ResponseWriter.new.setHeader "Content-Type" "application/json").writeHeader 200).write
            (.encoded (.weatherResponse ⟨city, tempC, tempC * 1.8 + 32, tempC + 273⟩)) := by
  rw [ServiceB.handleWeather_valid env r σ req hm hd hv]
  have h1 := ServiceB.fetchCityFromCEP_result env
    ⟨some (childSpanContext env σ r.ctx), r.ctx.baggage⟩ req.CEP
    ((⟨σ.nextSpan + 1, σ.events ++
      [.start σ.nextSpan "handleWeather" (childSpanContext env σ r.ctx) r.ctx.span],
      σ.sent⟩ : World).emit (.setAttributes σ.nextSpan "cep" (.string req.CEP)))
  rcases hfc : ServiceB.fetchCityFromCEP env
    ⟨some (childSpanContext env σ r.ctx), r.ctx.baggage⟩ req.CEP
    ((⟨σ.nextSpan + 1, σ.events ++
      [.start σ.nextSpan "handleWeather" (childSpanContext env σ r.ctx) r.ctx.span],
      σ.sent⟩ : World).emit (.setAttributes σ.nextSpan "cep" (.string req.CEP)))
    with ⟨res, σ₂⟩
  rw [hfc] at h1
  simp only [] at h1
  rw [hfc, ← h1]
  cases res with
  | error e => rfl
  | ok city =>
    simp only []
    rw [ServiceB.fetchTemperature_result]

/-- C7, counterexample: with a directory that cannot be reached (transport
error) and with a directory that answers 503, `handleWeather` answers 404 with
the JSON message "can not find zipcode", not 500. -/
theorem handleWeather_directory_outage_is_404 :
    scenarioOffline.clientDo ⟨"GET", ServiceB.directoryURL "01310100", Header.empty, none⟩ =
      .error "dial tcp: connection refused" ∧
    (ServiceB.handleWeather scenarioOffline requestS1 (World.fresh 0)).1.status = some 404 ∧
    (ServiceB.handleWeather scenarioOffline requestS1 (World.fresh 0)).1.body =
      [.encoded (.errorResponse ⟨"can not find zipcode"⟩)] ∧
    scenarioDirectory503.clientDo
        ⟨"GET", ServiceB.directoryURL "01310100", Header.empty, none⟩ =
      .ok ⟨503, Header.empty, "Service Unavailable"⟩ ∧
    (ServiceB.handleWeather scenarioDirectory503 requestS1 (World.fresh 0)).1.status =
      some 404 ∧
    (ServiceB.handleWeather scenarioDirectory503 requestS1 (World.fresh 0)).1.body =
      [.encoded (.errorResponse ⟨"can not find zipcode"⟩)] :=
  ⟨rfl, by decide, rfl, rfl, by decide, rfl⟩

/-- C7, amended: for a POST with a valid cep, `handleWeather` answers 404
exactly when `fetchCityFromCEP` fails, whatever the reason: the directory
request cannot be built, `client.Do` reports a transport error, the directory
answers a status other than 200, its reply does not decode, or it decodes with
`erro == true`; the 404 always carries the JSON message "can not find
zipcode". It answers 500, with the plain text "Failed to fetch temperature",
exactly when the directory lookup succeeded and `fetchTemperature` fails: the
weather request cannot be built, transport error, a status other than 200, or
an undecodable reply. -/
theorem handleWeather_failure_statuses (env : Env) (r : Request) (σ : World)
    (req : CEPRequest) (hm : r.method = "POST") (hd : env.decodeCEPRequest r.body = .ok req)
    (hv : ServiceB.isValidCEP req.CEP = true) :
    ((ServiceB.handleWeather env r σ).1.status = some 404 ↔
      (urlParses (ServiceB.directoryURL req.CEP) = false ∨
        (∃ e, env.clientDo ⟨"GET", ServiceB.directoryURL req.CEP, Header.empty, none⟩ =
          .error e) ∨
        (∃ resp, env.clientDo ⟨"GET", ServiceB.directoryURL req.CEP, Header.empty, none⟩ =
            .ok resp ∧
          (resp.statusCode ≠ 200 ∨
            (∃ e, env.decodeViaCEPResponse resp.body = .error e) ∨
            (∃ v, env.decodeViaCEPResponse resp.body = .ok v ∧ v.Erro = true))))) ∧
    ((ServiceB.handleWeather env r σ).1.status = some 404 →
      (ServiceB.handleWeather env r σ).1.header.get "Content-Type" = "application/json" ∧
      (ServiceB.handleWeather env r σ).1.body =
        [.encoded (.errorResponse ⟨"can not find zipcode"⟩)]) ∧
    ((ServiceB.handleWeather env r σ).1.status = some 500 ↔
      ∃ resp v, urlParses (ServiceB.directoryURL req.CEP) = true ∧
        env.clientDo ⟨"GET", ServiceB.directoryURL req.CEP, Header.empty, none⟩ = .ok resp ∧
        resp.statusCode = 200 ∧ env.decodeViaCEPResponse resp.body = .ok v ∧ v.Erro = false ∧
        (urlParses (ServiceB.weatherURL env v.Localidade) = false ∨
          (∃ e, env.clientDo
            ⟨"GET", ServiceB.weatherURL env v.Localidade, Header.empty, none⟩ = .error e) ∨
          (∃ wresp, env.clientDo
              ⟨"GET", ServiceB.weatherURL env v.Localidade, Header.empty, none⟩ = .ok wresp ∧
            (wresp.statusCode ≠ 200 ∨
              ∃ e, env.decodeWeatherAPIResponse wresp.body = .error e)))) ∧
    ((ServiceB.handleWeather env r σ).1.status = some 500 →
      (ServiceB.handleWeather env r σ).1.header.get "Content-Type" =
        "text/plain; charset=utf-8" ∧
      (ServiceB.handleWeather env r σ).1.body = [.text "Failed to fetch temperature\n"]) := by
  rw [ServiceB.handleWeather_valid_answers env r σ req hm hd hv]
  have n404 : ∀ w : ResponseWriter, w.status = some 404 → ¬ w.status = some 500 := by
    intro w h h'
    rw [h] at h'
    cases h'
  by_cases hu : urlParses (ServiceB.directoryURL req.CEP) = true
  swap
  · have hu' : urlParses (ServiceB.directoryURL req.CEP) = false := by simpa using hu
    rw [if_neg hu]
    refine ⟨⟨fun _ => Or.inl hu', fun _ => rfl⟩, fun _ => ⟨rfl, rfl⟩,
      ⟨fun h => absurd h (n404 _ rfl), ?_⟩, fun h => absurd h (n404 _ rfl)⟩
    rintro ⟨_, _, hu'', _⟩
    exact absurd hu'' hu
  rw [if_pos hu]
  cases hdo : env.clientDo ⟨"GET", ServiceB.directoryURL req.CEP, Header.empty, none⟩ with
  | error e =>
    refine ⟨⟨fun _ => Or.inr (Or.inl ⟨e, rfl⟩), fun _ => rfl⟩, fun _ => ⟨rfl, rfl⟩,
      ⟨fun h => absurd h (n404 _ rfl), ?_⟩, fun h => absurd h (n404 _ rfl)⟩
    rintro ⟨_, _, _, hdo', _⟩
    cases hdo'
  | ok resp =>
    simp only []
    by_cases hs : resp.statusCode = 200
    swap
    · rw [if_neg hs]
      refine ⟨⟨fun _ => Or.inr (Or.inr ⟨resp, rfl, Or.inl hs⟩), fun _ => rfl⟩,
        fun _ => ⟨rfl, rfl⟩,
        ⟨fun h => absurd h (n404 _ rfl), ?_⟩, fun h => absurd h (n404 _ rfl)⟩
      rintro ⟨_, _, _, hdo', hs', _⟩
      cases hdo'
      exact absurd hs' hs
    rw [if_pos hs]
    cases hdec : env.decodeViaCEPResponse resp.body with
    | error e =>
      refine ⟨⟨fun _ => Or.inr (Or.inr ⟨resp, rfl, Or.inr (Or.inl ⟨e, hdec⟩)⟩),
          fun _ => rfl⟩, fun _ => ⟨rfl, rfl⟩,
        ⟨fun h => absurd h (n404 _ rfl), ?_⟩, fun h => absurd h (n404 _ rfl)⟩
      rintro ⟨_, _, _, hdo', _, hdec', _⟩
      cases hdo'
      rw [hdec] at hdec'
      cases hdec'
    | ok v =>
      simp only []
      cases hE : v.Erro with
      | true =>
        refine ⟨⟨fun _ => Or.inr (Or.inr ⟨resp, rfl, Or.inr (Or.inr ⟨v, hdec, hE⟩)⟩),
            fun _ => rfl⟩, fun _ => ⟨rfl, rfl⟩,
          ⟨fun h => absurd h (n404 _ rfl), ?_⟩, fun h => absurd h (n404 _ rfl)⟩
        rintro ⟨_, _, _, hdo', _, hdec', hE', _⟩
        cases hdo'
        rw [hdec] at hdec'
        cases hdec'
        rw [hE] at hE'
        cases hE'
      | false =>
        simp only [Bool.false_eq_true, if_false]
        have hnot : ¬ (urlParses (ServiceB.directoryURL req.CEP) = false ∨
            (∃ e, (Except.ok resp : Except String HTTPResponse) = .error e) ∨
            (∃ resp', (Except.ok resp : Except String HTTPResponse) = .ok resp' ∧
              (resp'.statusCode ≠ 200 ∨
                (∃ e, env.decodeViaCEPResponse resp'.body = .error e) ∨
                (∃ v', env.decodeViaCEPResponse resp'.body = .ok v' ∧ v'.Erro = true)))) := by
          rintro (h | ⟨e, h⟩ | ⟨resp', h, h' | ⟨e, h'⟩ | ⟨v', h', h''⟩⟩)
          · rw [hu] at h
            cases h
          · cases h
          · cases h
            exact h' hs
          · cases h
            rw [hdec] at h'
            cases h'
          · cases h
            rw [hdec] at h'
            cases h'
            rw [hE] at h''
            cases h''
        have nst : ∀ (w : ResponseWriter) (a b : Nat), w.status = some a → a ≠ b →
            ¬ w.status = some b := by
          intro w a b h hab h'
          rw [h] at h'
          exact hab (Option.some.inj h')
        generalize hR2 : (if urlParses (ServiceB.weatherURL env v.Localidade) = true then
            match env.clientDo
              ⟨"GET", ServiceB.weatherURL env v.Localidade, Header.empty, none⟩ with
            | .error err => .error err
            | .ok resp =>
              if resp.statusCode = 200 then
                match env.decodeWeatherAPIResponse resp.body with
                | .error err => .error err
                | .ok v => .ok v.TempC
              else .error ("weatherAPI returned status " ++ toString resp.statusCode)
          else Except.error ("parse " ++ ServiceB.weatherURL env v.Localidade) :
            Except String Float) = R2
        have hW : (∃ e, R2 = Except.error e) ↔
            (urlParses (ServiceB.weatherURL env v.Localidade) = false ∨
              (∃ e, env.clientDo
                ⟨"GET", ServiceB.weatherURL env v.Localidade, Header.empty, none⟩ = .error e) ∨
              (∃ wresp, env.clientDo
                  ⟨"GET", ServiceB.weatherURL env v.Localidade, Header.empty, none⟩ =
                  .ok wresp ∧
                (wresp.statusCode ≠ 200 ∨
                  ∃ e, env.decodeWeatherAPIResponse wresp.body = .error e))) := by
          rw [← hR2]
          by_cases hwu : urlParses (ServiceB.weatherURL env v.Localidade) = true
          · rw [if_pos hwu]
            cases hwdo : env.clientDo
                ⟨"GET", ServiceB.weatherURL env v.Localidade, Header.empty, none⟩ with
            | error e => simp [hwu]
            | ok wresp =>
              by_cases hws : wresp.statusCode = 200
              · simp only []
                rw [if_pos hws]
                cases hwdec : env.decodeWeatherAPIResponse wresp.body with
                | error e => simp [hwu, hws, hwdec]
                | ok w => simp [hwu, hws, hwdec]
              · simp [hwu, hws]
          · simp [hwu]
        cases R2 with
        | error e =>
          have hWf := hW.1 ⟨e, rfl⟩
          exact ⟨⟨fun h => absurd h (nst _ 500 404 rfl (by decide)), fun h => absurd h hnot⟩,
            fun h => absurd h (nst _ 500 404 rfl (by decide)),
            ⟨fun _ => ⟨resp, v, hu, rfl, hs, hdec, hE, hWf⟩, fun _ => rfl⟩,
            fun _ => ⟨rfl, rfl⟩⟩
        | ok t =>
          refine ⟨⟨fun h => absurd h (nst _ 200 404 rfl (by decide)), fun h => absurd h hnot⟩,
            fun h => absurd h (nst _ 200 404 rfl (by decide)),
            ⟨fun h => absurd h (nst _ 200 500 rfl (by decide)), ?_⟩,
            fun h => absurd h (nst _ 200 500 rfl (by decide))⟩
          rintro ⟨resp', v', _, hdo', _, hdec', _, hWf'⟩
          cases hdo'
          rw [hdec] at hdec'
          cases hdec'
          obtain ⟨e, he⟩ := hW.2 hWf'
          cases he

/-- C7 amended, on two scenarios: an unreachable directory gives 404, and a
weather provider answering 500 after a successful lookup (scenario S5) gives
500. -/
theorem handleWeather_failure_statuses_witness :
    (ServiceB.handleWeather scenarioOffline requestS1 (World.fresh 0)).1.status = some 404 ∧
    (ServiceB.handleWeather scenarioS5 requestS1 (World.fresh 0)).1.status = some 500 :=
  ⟨(handleWeather_failure_statuses scenarioOffline requestS1 (World.fresh 0) ⟨"01310100"⟩
      rfl rfl (by decide)).1.2 (Or.inr (Or.inl ⟨"dial tcp: connection refused", rfl⟩)),
    (handleWeather_failure_statuses scenarioS5 requestS1 (World.fresh 0) ⟨"01310100"⟩
      rfl rfl (by decide)).2.2.1.2
      ⟨⟨200, ⟨[("Content-Type", "application/json")]⟩,
          "\x7b\"localidade\":\"São Paulo\",\"erro\":false\x7d"⟩, ⟨"São Paulo", false⟩,
        by decide, rfl, rfl, rfl, rfl,
        Or.inr (Or.inr ⟨⟨500, Header.empty, ""⟩, rfl, Or.inl (by decide)⟩)⟩⟩

/-- C8, counterexample: `handleCEP` answers a GET with 405 and `handleWeather`
answers a valid POST with 404 when the directory is unreachable, and in both
cases the handler span (handle 0) is ended with no `SetStatus` and no
`RecordError` call on it; in the second case the error is recorded on the
`fetchCityFromCEP` span (handle 1) only. -/
theorem handler_span_has_no_error_status :
    (ServiceA.handleCEP scenarioS1 requestS6 (World.fresh 0)).1.status = some 405 ∧
    (ServiceA.handleCEP scenarioS1 requestS6 (World.fresh 0)).2.events =
      [.start 0 "handleCEP"
          ⟨"0af7651916cd43dd8448eb211c80319c", "b7ad6b7169203331", true, ""⟩ none,
        .endSpan 0] ∧
    (ServiceB.handleWeather scenarioOffline requestS1 (World.fresh 0)).1.status = some 404 ∧
    (ServiceB.handleWeather scenarioOffline requestS1 (World.fresh 0)).2.events =
      [.start 0 "handleWeather"
          ⟨"0af7651916cd43dd8448eb211c80319c", "b7ad6b7169203331", true, ""⟩ none,
        .setAttributes 0 "cep" (.string "01310100"),
        .start 1 "fetchCityFromCEP"
          ⟨"0af7651916cd43dd8448eb211c80319c", "53995c3f42cd8ad8", true, ""⟩
          (some ⟨"0af7651916cd43dd8448eb211c80319c", "b7ad6b7169203331", true, ""⟩),
        .recordError 1 "dial tcp: connection refused",
        .setStatusError 1 "dial tcp: connection refused",
        .endSpan 1,
        .endSpan 0] ∧
    (ServiceB.handleWeather scenarioOffline requestS1 (World.fresh 0)).2.events.any
      (SpanEvent.marksError 0) = false :=
  ⟨by decide, rfl, by decide, rfl, by decide⟩

/-- C8, amended: on every path of `handleCEP` and of `handleWeather`, whatever
the status written (405, 400, 422, 404, 500 or 200), the handler span is ended
exactly once and no error status is set and no error is recorded on it:
`handleCEP` makes no tracing call but the start and the end of its span, and
among the tracing calls of `handleWeather` none is a `SetStatus` or
`RecordError` on the handler span and exactly one is its `End`. -/
theorem handler_span_ends_unset (env : Env) (r : Request) (σ : World) :
    (ServiceA.handleCEP env r σ).2.events = σ.events ++
      [.start σ.nextSpan "handleCEP" (childSpanContext env σ r.ctx) r.ctx.span,
        .endSpan σ.nextSpan] ∧
    ∃ calls, (ServiceB.handleWeather env r σ).2.events = σ.events ++ calls ∧
      calls.any (SpanEvent.marksError σ.nextSpan) = false ∧
      calls.countP (SpanEvent.endsSpan σ.nextSpan) = 1 := by
  refine ⟨ServiceA.handleCEP_events env r σ, ?_⟩
  rcases ServiceB.handleWeather_paths env r σ with
    ⟨_, h⟩ | ⟨_, h⟩ | ⟨_, cep, h⟩ | ⟨_, cep, sc₁, e, h⟩ | ⟨_, cep, city, sc₁, sc₂, e, h⟩ |
    ⟨_, cep, city, tempC, sc₁, sc₂, h⟩
  all_goals
    refine ⟨_, h, ?_, ?_⟩
  all_goals simp [SpanEvent.marksError, SpanEvent.endsSpan, List.countP_cons]

/-- C10: for every request, the tracing calls `handleWeather` makes begin
with the start of one span named `handleWeather`, contain no other start of
that name, and end with the one `End` call on that span, whatever the exit
path. When the answer is 200 the calls are exactly, in this order: start of
`handleWeather`; its `cep` attribute; start of one `fetchCityFromCEP` span
whose parent is the `handleWeather` span; its `city` attribute; its `End`;
start of one `fetchTemperature` span whose parent is the `handleWeather` span;
its `tempC` attribute; its `End`; the `End` of `handleWeather`. So each of the
two child spans is started once and ended once, and `fetchCityFromCEP` has
ended before `fetchTemperature` starts. -/
theorem handleWeather_span_lifecycle (env : Env) (r : Request) (σ : World) :
    ∃ calls, (ServiceB.handleWeather env r σ).2.events = σ.events ++ calls ∧
      calls.head? =
        some (.start σ.nextSpan "handleWeather" (childSpanContext env σ r.ctx) r.ctx.span) ∧
      calls.countP (SpanEvent.startsNamed "handleWeather") = 1 ∧
      calls.countP (SpanEvent.endsSpan σ.nextSpan) = 1 ∧
      calls.getLast? = some (.endSpan σ.nextSpan) ∧
      ((ServiceB.handleWeather env r σ).1.status = some 200 →
        (∃ cep city tempC sc₁ sc₂, calls =
          [.start σ.nextSpan "handleWeather" (childSpanContext env σ r.ctx) r.ctx.span,
            .setAttributes σ.nextSpan "cep" (.string cep),
            .start (σ.nextSpan + 1) "fetchCityFromCEP" sc₁
              (some (childSpanContext env σ r.ctx)),
            .setAttributes (σ.nextSpan + 1) "city" (.string city),
            .endSpan (σ.nextSpan + 1),
            .start (σ.nextSpan + 2) "fetchTemperature" sc₂
              (some (childSpanContext env σ r.ctx)),
            .setAttributes (σ.nextSpan + 2) "tempC" (.float64 tempC),
            .endSpan (σ.nextSpan + 2),
            .endSpan σ.nextSpan]) ∧
        calls.countP (SpanEvent.startsNamed "fetchCityFromCEP") = 1 ∧
        calls.countP (SpanEvent.startsNamed "fetchTemperature") = 1 ∧
        calls.countP (SpanEvent.endsSpan (σ.nextSpan + 1)) = 1 ∧
        calls.countP (SpanEvent.endsSpan (σ.nextSpan + 2)) = 1) := by
  have nst : ∀ (w : ResponseWriter) (a : Nat), w.status = some a → a ≠ 200 →
      ¬ w.status = some 200 := by
    intro w a h hab h'
    rw [h] at h'
    exact hab (Option.some.inj h')
  rcases ServiceB.handleWeather_paths env r σ with
    ⟨hs, h⟩ | ⟨hs, h⟩ | ⟨hs, cep, h⟩ | ⟨hs, cep, sc₁, e, h⟩ |
    ⟨hs, cep, city, sc₁, sc₂, e, h⟩ | ⟨hs, cep, city, tempC, sc₁, sc₂, h⟩
  · refine ⟨_, h, rfl, ?_, ?_, rfl, fun h' => absurd h' (nst _ _ hs (by decide))⟩
    all_goals simp [SpanEvent.startsNamed, SpanEvent.endsSpan, List.countP_cons]
  · refine ⟨_, h, rfl, ?_, ?_, rfl, fun h' => absurd h' (nst _ _ hs (by decide))⟩
    all_goals simp [SpanEvent.startsNamed, SpanEvent.endsSpan, List.countP_cons]
  · refine ⟨_, h, rfl, ?_, ?_, rfl, fun h' => absurd h' (nst _ _ hs (by decide))⟩
    all_goals simp [SpanEvent.startsNamed, SpanEvent.endsSpan, List.countP_cons]
  · refine ⟨_, h, rfl, ?_, ?_, rfl, fun h' => absurd h' (nst _ _ hs (by decide))⟩
    all_goals simp [SpanEvent.startsNamed, SpanEvent.endsSpan, List.countP_cons]
  · refine ⟨_, h, rfl, ?_, ?_, rfl, fun h' => absurd h' (nst _ _ hs (by decide))⟩
    all_goals simp [SpanEvent.startsNamed, SpanEvent.endsSpan, List.countP_cons]
  · refine ⟨_, h, rfl, ?_, ?_, rfl, fun _ => ⟨⟨cep, city, tempC, sc₁, sc₂, rfl⟩, ?_, ?_, ?_, ?_⟩⟩
    all_goals simp [SpanEvent.startsNamed, SpanEvent.endsSpan, List.countP_cons]

/-- C10, on scenario S1: the answer is 200 and the nine tracing calls are the
ones listed, with the two child spans parented to the handler span. -/
theorem handleWeather_span_lifecycle_witness :
    (ServiceB.handleWeather scenarioS1 requestS1 (World.fresh 0)).1.status = some 200 ∧
    ∃ calls, (ServiceB.handleWeather scenarioS1 requestS1 (World.fresh 0)).2.events =
        (World.fresh 0).events ++ calls ∧
      calls.countP (SpanEvent.startsNamed "fetchCityFromCEP") = 1 ∧
      calls.countP (SpanEvent.startsNamed "fetchTemperature") = 1 :=
  have h200 : (ServiceB.handleWeather scenarioS1 requestS1 (World.fresh 0)).1.status =
      some 200 := by decide
  match handleWeather_span_lifecycle scenarioS1 requestS1 (World.fresh 0) with
  | ⟨calls, hc, _, _, _, _, h⟩ => ⟨h200, calls, hc, (h h200).2.1, (h h200).2.2.1⟩

/-- C1, on scenarios S6, S2 and S1: the 405, 422 and 200 answers. -/
theorem handleWeather_status_precedence_witness :
    (ServiceB.handleWeather scenarioS1 requestS6 (World.fresh 0)).1.status = some 405 ∧
    (ServiceB.handleWeather scenarioS1 requestS2 (World.fresh 0)).1.status = some 422 ∧
    (ServiceB.handleWeather scenarioS1 requestS1 (World.fresh 0)).1.status = some 200 :=
  ⟨(handleWeather_status_precedence scenarioS1 requestS6 (World.fresh 0)).1 (by decide),
    (((handleWeather_status_precedence scenarioS1 requestS2 (World.fresh 0)).2.2 rfl
      ⟨"1234"⟩ rfl).1 (by decide)).1,
    ((((handleWeather_status_precedence scenarioS1 requestS1 (World.fresh 0)).2.2 rfl
      ⟨"01310100"⟩ rfl).2 (by decide)).2 "São Paulo" _ rfl).2 25.0 _ rfl |>.1⟩

/-! ### The temperatures of the envelope -/

theorem binary64_constants :
    Arith.binary64.c1_8 = .finite false 8106479329266893 (-52) ∧
    Arith.binary64.c32 = .finite false (2 ^ 52) (-47) ∧
    Arith.binary64.c273 = .finite false (273 * 2 ^ 44) (-44) ∧
    Binary64.ofNat 25 = .finite false (25 * 2 ^ 48) (-48) ∧
    Binary64.ofNat 77 = .finite false (77 * 2 ^ 46) (-46) ∧
    Binary64.ofNat 298 = .finite false (298 * 2 ^ 44) (-44) := by
  refine ⟨?_, ?_, ?_, ?_, ?_, ?_⟩ <;> decide

set_option maxRecDepth 100000 in
/-- The product `25 * 1.8` is not exact (`1.8` is not representable) and rounds
to exactly 45. -/
theorem binary64_product_25 :
    Binary64.mul (Binary64.ofNat 25) Arith.binary64.c1_8 = Binary64.ofNat 45 := by
  decide

set_option maxRecDepth 100000 in
/-- At the largest finite float64 the product overflows and the Fahrenheit
value is `+Inf`. -/
theorem toFahrenheit_overflow :
    toFahrenheit Arith.binary64 (.finite false (2 ^ 53 - 1) 971) = .inf false := by
  decide

set_option maxRecDepth 100000 in
/-- C9: on the success path of `handleWeather`, for every Celsius value
`tempC` returned by `fetchTemperature` and the city returned by
`fetchCityFromCEP`, the `WeatherResponse` handed to the encoder has that city,
`temp_C = tempC`, `temp_F = tempC*1.8 + 32` and `temp_K = tempC + 273`, the
float64 operations of lines 208-209. In float64 arithmetic `tempC = 25` gives
`temp_F = 77` and `temp_K = 298`, also when the multiplication and the addition
are fused. -/
theorem weatherResponse_temperatures :
    (∀ (env : Env) (r : Request) (σ : World) (req : CEPRequest) (city : String)
        (σ₂ : World) (tempC : Float) (σ₃ : World),
      r.method = "POST" → env.decodeCEPRequest r.body = .ok req →
      ServiceB.isValidCEP req.CEP = true →
      ServiceB.fetchCityFromCEP env (tracerStart env σ r.ctx "handleWeather").2.1 req.CEP
          ((tracerStart env σ r.ctx "handleWeather").1.emit
            (.setAttributes (tracerStart env σ r.ctx "handleWeather").2.2 "cep"
              (.string req.CEP))) = (.ok city, σ₂) →
      ServiceB.fetchTemperature env (tracerStart env σ r.ctx "handleWeather").2.1 city σ₂ =
          (.ok tempC, σ₃) →
      (ServiceB.handleWeather env r σ).1.status = some 200 ∧
      (ServiceB.handleWeather env r σ).1.body =
        [.encoded (.weatherResponse
          { City := city, TempC := tempC, TempF := toFahrenheit Arith.float tempC,
            TempK := toKelvin Arith.float tempC })]) ∧
    (∀ tempC : Float, toFahrenheit Arith.float tempC = tempC * 1.8 + 32 ∧
      toKelvin Arith.float tempC = tempC + 273) ∧
    toFahrenheit Arith.binary64 (Binary64.ofNat 25) = Binary64.ofNat 77 ∧
    toKelvin Arith.binary64 (Binary64.ofNat 25) = Binary64.ofNat 298 ∧
    Binary64.fma (Binary64.ofNat 25) Arith.binary64.c1_8 Arith.binary64.c32 =
      Binary64.ofNat 77 := by
  refine ⟨?_, fun _ => ⟨rfl, rfl⟩, by decide, by decide, by decide⟩
  intro env r σ req city σ₂ tempC σ₃ hm hd hv hc ht
  rw [ServiceB.handleWeather_eq,
    ServiceB.handleWeatherBody_ok _ _ _ _ _ _ hm req hd hv city σ₂ hc tempC σ₃ ht]
  exact ⟨rfl, rfl⟩

/-- C9, on scenario S1: the directory gives São Paulo, the weather provider
gives 25, and the envelope is built from them. -/
theorem weatherResponse_temperatures_witness :
    (ServiceB.handleWeather scenarioS1 requestS1 (World.fresh 0)).1.body =
      [.encoded (.weatherResponse
        { City := "São Paulo", TempC := 25.0, TempF := toFahrenheit Arith.float 25.0,
          TempK := toKelvin Arith.float 25.0 })] :=
  (weatherResponse_temperatures.1 scenarioS1 requestS1 (World.fresh 0) ⟨"01310100"⟩
    "São Paulo" _ 25.0 _ rfl rfl (by decide) rfl rfl).2

end OtelZipkin
